import Mathlib

/-!
Terraform AWS provider: the Connect data sources and the Batch service package.

A shallow embedding of

* `internal/service/connect/routing_profile_data_source.go`
* `internal/service/connect/user_hierarchy_group_data_source.go`
* `internal/service/batch/service_package_gen.go`

Conventions of the embedding.

* A Go `*string` is an `Option String`; `aws.String` is `some`, `aws.ToString` is
  `Option.getD · ""`.
* A Go `error` is an `Err` carrying the text of `Error()`; `fmt.Sprintf` with `%s`
  verbs is string concatenation.
* The AWS SDK client is scripted: it is a record of how the service answers each
  operation. A paginator is the list of outcomes its successive `NextPage` calls
  produce; `HasMorePages` holds while that list is non-empty.
* Every SDK call a function issues is appended to a call log, and `SetId` calls are
  recorded in `ResourceData.setIdCalls`, so that statements about which calls are
  (not) made can be written down.
* A run of a read function either returns diagnostics or panics (nil pointer
  dereference, failed type assertion).
* The loops `for _, qs := range ... { ... result = &qs }` are read with the
  per-iteration loop variable of Go 1.22 and later: `&qs` is the address of a copy of
  the element of this iteration.
-/

set_option autoImplicit false

namespace TerraformAws

/-! ## Go basics -/

/-- A Go `error` value, identified with the text its `Error()` method returns. -/
structure Err where
  Error : String
deriving DecidableEq, Repr

/-- The `context.Context` argument; it is only forwarded to the SDK. -/
structure Context where
  deadline : Option Nat
deriving DecidableEq, Repr

/-- Reasons a Go run aborts instead of returning. -/
inductive Panic where
  | nilPointerDereference
  | typeAssertion
deriving DecidableEq, Repr

/-- Go `aws.ToString`: the pointed-to string, or the empty string for nil.
(`aws.String v` is written `some v`.) -/
def aws.ToString (p : Option String) : String := p.getD ""

/-! ## Plugin SDK: values, resource data, diagnostics -/

/-- A dynamically typed attribute value (Go `interface{}`) of the plugin SDK. -/
inductive Value where
  | string (s : String)
  | int (i : Int)
  | list (xs : List Value)
  | map (kvs : List (String × Value))

/-- Go type assertion `v.(string)`: `none` stands for the panic of a failed assertion. -/
def Value.asString? : Value → Option String
  | .string s => some s
  | _ => none

/-- Whether a value is the zero value of its type. -/
def Value.isZero : Value → Bool
  | .string s => s == ""
  | .int i => i == 0
  | .list xs => xs.isEmpty
  | .map kvs => kvs.isEmpty

/-- The value `d.Set` stores for a Go `*string`: nil is stored as the empty string. -/
def Value.ofStringPtr (p : Option String) : Value := .string (aws.ToString p)

/-- The plugin SDK's `schema.ResourceData`: the attribute values (the zero value of
the attribute's type when unset), the resource ID, the errors `Set` reports (a
behaviour of the framework, taken as given), and the history of `SetId` calls. -/
structure ResourceData where
  attrs : String → Value
  id : String
  setError : String → Value → Option Err
  setIdCalls : List String

namespace ResourceData

/-- Go `d.Get(key)`. -/
def Get (d : ResourceData) (key : String) : Value := d.attrs key

/-- Go `d.GetOk(key)`: the value and whether it is set to a non-zero value. -/
def GetOk (d : ResourceData) (key : String) : Value × Bool :=
  (d.attrs key, !(d.attrs key).isZero)

/-- Go `d.Set(key, value)`: stores the value unless the framework reports an error. -/
def Set (d : ResourceData) (key : String) (value : Value) : ResourceData × Option Err :=
  match d.setError key value with
  | some err => (d, some err)
  | none => ({ d with attrs := fun k => if k = key then value else d.attrs k }, none)

/-- Go `d.Id()`. -/
def Id (d : ResourceData) : String := d.id

/-- Go `d.SetId(v)`. -/
def SetId (d : ResourceData) (v : String) : ResourceData :=
  { d with id := v, setIdCalls := d.setIdCalls ++ [v] }

end ResourceData

namespace diag

/-- Go `diag.Severity`. -/
inductive Severity where
  | Error
  | Warning
deriving DecidableEq, Repr

/-- Go `diag.Diagnostic`. -/
structure Diagnostic where
  Severity : diag.Severity
  Summary : String
  Detail : String := ""
deriving DecidableEq, Repr

/-- Go `diag.Diagnostics`. -/
abbrev Diagnostics := List Diagnostic

/-- Go `Diagnostics.HasError`. -/
def Diagnostics.HasError (diags : Diagnostics) : Bool :=
  diags.any (fun x => x.Severity == Severity.Error)

end diag

namespace sdkdiag

/-- Modelled from the spec: `sdkdiag.AppendErrorf` lives in `internal/errs/sdkdiag`,
outside the excerpt. "Errors from the SDK are wrapped with a contextual message and
surfaced to the host framework's diagnostics channel": it appends one error
diagnostic whose summary is the formatted message. The caller passes the message
already formatted. -/
def AppendErrorf (diags : diag.Diagnostics) (message : String) : diag.Diagnostics :=
  diags ++ [{ Severity := diag.Severity.Error, Summary := message }]

/-- Modelled from the spec: `sdkdiag.AppendFromErr` lives in `internal/errs/sdkdiag`,
outside the excerpt. It surfaces the error on the diagnostics channel: one error
diagnostic whose summary is the error's text. -/
def AppendFromErr (diags : diag.Diagnostics) (err : Err) : diag.Diagnostics :=
  diags ++ [{ Severity := diag.Severity.Error, Summary := err.Error }]

end sdkdiag

/-! ## AWS SDK for Go v2: `service/connect` -/

namespace awstypes

/-- SDK `types.RoutingProfileSummary`. -/
structure RoutingProfileSummary where
  Arn : Option String
  Id : Option String
  Name : Option String
deriving DecidableEq, Repr

/-- SDK `types.HierarchyGroupSummary`. -/
structure HierarchyGroupSummary where
  Arn : Option String
  Id : Option String
  Name : Option String
deriving DecidableEq, Repr

/-- SDK `types.MediaConcurrency`. -/
structure MediaConcurrency where
  Channel : String
  Concurrency : Option Int
deriving DecidableEq, Repr

/-- SDK `types.RoutingProfile` (the fields the data source reads). -/
structure RoutingProfile where
  DefaultOutboundQueueId : Option String
  Description : Option String
  MediaConcurrencies : List MediaConcurrency
  Name : Option String
  RoutingProfileArn : Option String
  RoutingProfileId : Option String
  Tags : List (String × String)
deriving DecidableEq, Repr

/-- SDK `types.HierarchyGroupSummaryReference`. -/
structure HierarchyGroupSummaryReference where
  Arn : Option String
  Id : Option String
deriving DecidableEq, Repr

/-- SDK `types.HierarchyPath`. -/
structure HierarchyPath where
  LevelOne : Option HierarchyGroupSummaryReference
  LevelTwo : Option HierarchyGroupSummaryReference
  LevelThree : Option HierarchyGroupSummaryReference
  LevelFour : Option HierarchyGroupSummaryReference
  LevelFive : Option HierarchyGroupSummaryReference
deriving DecidableEq, Repr

/-- SDK `types.HierarchyGroup` (the fields the data source reads). -/
structure HierarchyGroup where
  Arn : Option String
  HierarchyPath : Option HierarchyPath
  Id : Option String
  LevelId : Option String
  Name : Option String
  Tags : List (String × String)
deriving DecidableEq, Repr

end awstypes

namespace connect

/-- SDK `connect.ListRoutingProfilesInput`; the paginator owns `NextToken`. -/
structure ListRoutingProfilesInput where
  InstanceId : Option String
  MaxResults : Option Nat
deriving DecidableEq, Repr

/-- SDK `connect.ListRoutingProfilesOutput`. -/
structure ListRoutingProfilesOutput where
  RoutingProfileSummaryList : List awstypes.RoutingProfileSummary
deriving DecidableEq, Repr

/-- SDK `connect.DescribeRoutingProfileInput`. -/
structure DescribeRoutingProfileInput where
  InstanceId : Option String
  RoutingProfileId : Option String
deriving DecidableEq, Repr

/-- SDK `connect.DescribeRoutingProfileOutput`. -/
structure DescribeRoutingProfileOutput where
  RoutingProfile : Option awstypes.RoutingProfile
deriving DecidableEq, Repr

/-- SDK `connect.ListUserHierarchyGroupsInput`; the paginator owns `NextToken`. -/
structure ListUserHierarchyGroupsInput where
  InstanceId : Option String
  MaxResults : Option Nat
deriving DecidableEq, Repr

/-- SDK `connect.ListUserHierarchyGroupsOutput`. -/
structure ListUserHierarchyGroupsOutput where
  UserHierarchyGroupSummaryList : List awstypes.HierarchyGroupSummary
deriving DecidableEq, Repr

/-- SDK `connect.DescribeUserHierarchyGroupInput`. -/
structure DescribeUserHierarchyGroupInput where
  HierarchyGroupId : Option String
  InstanceId : Option String
deriving DecidableEq, Repr

/-- SDK `connect.DescribeUserHierarchyGroupOutput`. -/
structure DescribeUserHierarchyGroupOutput where
  HierarchyGroup : Option awstypes.HierarchyGroup
deriving DecidableEq, Repr

/-- The scripted `*connect.Client`: how the service answers. For a list operation,
the outcomes of the successive `NextPage` calls of a paginator created with the given
input; for a Describe operation, the Go result pair `(resp, err)`. -/
structure Client where
  ListRoutingProfiles : ListRoutingProfilesInput → List (Except Err ListRoutingProfilesOutput)
  DescribeRoutingProfile :
    DescribeRoutingProfileInput → Option DescribeRoutingProfileOutput × Option Err
  ListUserHierarchyGroups :
    ListUserHierarchyGroupsInput → List (Except Err ListUserHierarchyGroupsOutput)
  DescribeUserHierarchyGroup :
    DescribeUserHierarchyGroupInput → Option DescribeUserHierarchyGroupOutput × Option Err

/-- One SDK request issued through the client. A list entry is one `NextPage` call;
`ListRoutingProfileQueues` stands for the listing done by
`getRoutingProfileQueueConfigs`. -/
inductive Call where
  | ListRoutingProfiles (input : ListRoutingProfilesInput)
  | DescribeRoutingProfile (input : DescribeRoutingProfileInput)
  | ListRoutingProfileQueues (instanceID : String) (routingProfileID : String)
  | ListUserHierarchyGroups (input : ListUserHierarchyGroupsInput)
  | DescribeUserHierarchyGroup (input : DescribeUserHierarchyGroupInput)
deriving DecidableEq, Repr

/-- Go `connect.NewListRoutingProfilesPaginator(conn, input)`: the pages still to be
fetched, each with the outcome its `NextPage` call will have. -/
def NewListRoutingProfilesPaginator (conn : Client) (input : ListRoutingProfilesInput) :
    List (Except Err ListRoutingProfilesOutput) :=
  conn.ListRoutingProfiles input

/-- Go `connect.NewListUserHierarchyGroupsPaginator(conn, input)`. -/
def NewListUserHierarchyGroupsPaginator (conn : Client)
    (input : ListUserHierarchyGroupsInput) :
    List (Except Err ListUserHierarchyGroupsOutput) :=
  conn.ListUserHierarchyGroups input

end connect

/-- The tag-ignore configuration of `conns.AWSClient` (declared outside the excerpt; it
is only handed on to the tag helpers). -/
structure IgnoreTagsConfig where
  Keys : List String
deriving DecidableEq, Repr

/-- Go `conns.AWSClient`, the `meta` argument of a read (the parts used). -/
structure AWSClient where
  ConnectClient : connect.Client
  IgnoreTagsConfig : IgnoreTagsConfig

/-- What a run of a read function does: it returns diagnostics, or it panics; in both
cases with the resource data as left behind and the SDK calls issued, in order. -/
inductive Outcome where
  | returned (diags : diag.Diagnostics) (d : ResourceData) (calls : List connect.Call)
  | panicked (p : Panic) (d : ResourceData) (calls : List connect.Call)

/-- The SDK calls issued during a run. -/
def Outcome.calls : Outcome → List connect.Call
  | .returned _ _ calls => calls
  | .panicked _ _ calls => calls

/-- The resource data a run leaves behind. -/
def Outcome.data : Outcome → ResourceData
  | .returned _ d _ => d
  | .panicked _ d _ => d

/-- The diagnostics of a run that returned. -/
def Outcome.diags? : Outcome → Option diag.Diagnostics
  | .returned diags _ _ => some diags
  | .panicked _ _ _ => none

/-! ## Plugin SDK: schemas -/

namespace schema

/-- Go `schema.ValueType`. -/
inductive ValueType where
  | TypeBool
  | TypeInt
  | TypeFloat
  | TypeString
  | TypeList
  | TypeMap
  | TypeSet
deriving DecidableEq, Repr

/-- Go `schema.SchemaValidateFunc`, reduced to whether the value is accepted (no
error reported). -/
abbrev SchemaValidateFunc := Value → Bool

/-- Go `schema.ReadContextFunc`. -/
abbrev ReadContextFunc := Context → ResourceData → AWSClient → Outcome

/-- The fields of Go `schema.Schema` that the data sources set; unset fields have
their Go zero value. `E` is the type of `Elem`. -/
structure SchemaOf (E : Type) where
  Type_ : ValueType
  Optional : Bool := false
  Required : Bool := false
  Computed : Bool := false
  Elem : Option E := none
  ValidateFunc : Option SchemaValidateFunc := none
  ExactlyOneOf : List String := []

/-- The fields of Go `schema.Resource` that the data sources set. The Go map
`map[string]*Schema` is the list of its entries in source order. -/
structure ResourceOf (S : Type) where
  Schema : List (String × S)
  ReadWithoutTimeout : Option ReadContextFunc := none

/-- Go `Schema.Elem`: a `*schema.Resource` or a `*schema.Schema`. -/
inductive Elem where
  | Resource (r : ResourceOf (SchemaOf Elem))
  | Schema (s : SchemaOf Elem)

/-- Go `schema.Schema`. -/
abbrev Schema := SchemaOf Elem

/-- Go `schema.Resource`. -/
abbrev Resource := ResourceOf Schema

end schema

/-- Go `validation.StringLenBetween(min, max)` of the plugin SDK: accepts exactly the
strings `v` with `min <= len(v) <= max`, where `len` counts bytes. -/
def validation.StringLenBetween (min max : Nat) : schema.SchemaValidateFunc
  | .string v => decide (min ≤ v.utf8ByteSize) && decide (v.utf8ByteSize ≤ max)
  | _ => false

/-! ## Package `internal/service/connect` -/

namespace tfconnect

open connect

/-- Declarations of package `connect` and of `internal/tags` that the two data source
files use but that lie outside the excerpt. They are parameters of the
embedding: package constants, the flatten helpers, the schema helpers
`userHierarchyPathLevelSchema()` and `tftags.TagsSchemaComputed()`, the tag helper chain
`KeyValueTags(ctx, tags).IgnoreAWS().IgnoreConfig(cfg).Map()`, and
`getRoutingProfileQueueConfigs`, given by its Go result pair. -/
structure Deps where
  ListRoutingProfilesMaxResults : Nat
  ListUserHierarchyGroupsMaxResults : Nat
  flattenRoutingProfileMediaConcurrencies : List awstypes.MediaConcurrency → Value
  getRoutingProfileQueueConfigs : Client → String → String → Value × Option Err
  flattenUserHierarchyPath : Option awstypes.HierarchyPath → Value
  userHierarchyPathLevelSchema : schema.Schema
  TagsSchemaComputed : schema.Schema
  KeyValueTagsMap : List (String × String) → IgnoreTagsConfig → Value

/-- Lines 195-199 of `routing_profile_data_source.go`: the loop over one page,
`for _, qs := range page.RoutingProfileSummaryList`. -/
def dataSourceGetRoutingProfileSummaryByName.page (name : String)
    (result : Option awstypes.RoutingProfileSummary)
    (list : List awstypes.RoutingProfileSummary) : Option awstypes.RoutingProfileSummary :=
  list.foldl (fun result qs => if aws.ToString qs.Name = name then some qs else result) result

/-- Lines 188-202 of `routing_profile_data_source.go`: the loop
`for pages.HasMorePages()` and the final return. The list is the paginator; the
result is the Go result pair and the page requests issued. -/
def dataSourceGetRoutingProfileSummaryByName.loop (input : ListRoutingProfilesInput)
    (name : String) :
    List (Except Err ListRoutingProfilesOutput) → Option awstypes.RoutingProfileSummary →
      (Option awstypes.RoutingProfileSummary × Option Err) × List Call
  | [], result => ((result, none), [])
  | .error err :: _, _ => ((none, some err), [Call.ListRoutingProfiles input])
  | .ok page :: pages, result =>
    let r := dataSourceGetRoutingProfileSummaryByName.loop input name pages
      (dataSourceGetRoutingProfileSummaryByName.page name result page.RoutingProfileSummaryList)
    (r.1, Call.ListRoutingProfiles input :: r.2)

/-- Go `dataSourceGetRoutingProfileSummaryByName`
(`routing_profile_data_source.go`, lines 178-203). -/
def dataSourceGetRoutingProfileSummaryByName (deps : Deps) (_ctx : Context) (conn : Client)
    (instanceID name : String) :
    (Option awstypes.RoutingProfileSummary × Option Err) × List Call :=
  let result : Option awstypes.RoutingProfileSummary := none
  let input : ListRoutingProfilesInput :=
    { InstanceId := some instanceID, MaxResults := some deps.ListRoutingProfilesMaxResults }
  let pages := NewListRoutingProfilesPaginator conn input
  dataSourceGetRoutingProfileSummaryByName.loop input name pages result

/-- Lines 166-170 of `user_hierarchy_group_data_source.go`: the loop over one page. -/
def userHierarchyGroupSummaryByName.page (name : String)
    (result : Option awstypes.HierarchyGroupSummary)
    (list : List awstypes.HierarchyGroupSummary) : Option awstypes.HierarchyGroupSummary :=
  list.foldl (fun result qs => if aws.ToString qs.Name = name then some qs else result) result

/-- Lines 159-173 of `user_hierarchy_group_data_source.go`: the loop
`for pages.HasMorePages()` and the final return. -/
def userHierarchyGroupSummaryByName.loop (input : ListUserHierarchyGroupsInput)
    (name : String) :
    List (Except Err ListUserHierarchyGroupsOutput) → Option awstypes.HierarchyGroupSummary →
      (Option awstypes.HierarchyGroupSummary × Option Err) × List Call
  | [], result => ((result, none), [])
  | .error err :: _, _ => ((none, some err), [Call.ListUserHierarchyGroups input])
  | .ok page :: pages, result =>
    let r := userHierarchyGroupSummaryByName.loop input name pages
      (userHierarchyGroupSummaryByName.page name result page.UserHierarchyGroupSummaryList)
    (r.1, Call.ListUserHierarchyGroups input :: r.2)

/-- Go `userHierarchyGroupSummaryByName`
(`user_hierarchy_group_data_source.go`, lines 149-174). -/
def userHierarchyGroupSummaryByName (deps : Deps) (_ctx : Context) (conn : Client)
    (instanceID name : String) :
    (Option awstypes.HierarchyGroupSummary × Option Err) × List Call :=
  let result : Option awstypes.HierarchyGroupSummary := none
  let input : ListUserHierarchyGroupsInput :=
    { InstanceId := some instanceID, MaxResults := some deps.ListUserHierarchyGroupsMaxResults }
  let pages := NewListUserHierarchyGroupsPaginator conn input
  userHierarchyGroupSummaryByName.loop input name pages result

/-- Lines 137-175 of `routing_profile_data_source.go`: the part of
`dataSourceRoutingProfileRead` from the Describe call on, reached with the request
built so far and the SDK calls already issued. -/
def dataSourceRoutingProfileRead.describe (deps : Deps) (conn : Client)
    (ignoreTagsConfig : IgnoreTagsConfig) (diags : diag.Diagnostics) (d : ResourceData)
    (instanceID : String) (input : DescribeRoutingProfileInput) (calls : List Call) :
    Outcome :=
  let calls := calls ++ [Call.DescribeRoutingProfile input]
  match conn.DescribeRoutingProfile input with
  | (_, some err) =>
    .returned (sdkdiag.AppendErrorf diags ("getting Connect Routing Profile: " ++ err.Error))
      d calls
  | (resp, none) =>
    match resp.bind (fun r => r.RoutingProfile) with
    | none =>
      .returned (sdkdiag.AppendErrorf diags "getting Connect Routing Profile: empty response")
        d calls
    | some routingProfile =>
      match d.Set "media_concurrencies"
          (deps.flattenRoutingProfileMediaConcurrencies routingProfile.MediaConcurrencies) with
      | (_, some err) => .returned (sdkdiag.AppendFromErr diags err) d calls
      | (d, none) =>
        let d := (d.Set "arn" (Value.ofStringPtr routingProfile.RoutingProfileArn)).1
        let d := (d.Set "default_outbound_queue_id"
          (Value.ofStringPtr routingProfile.DefaultOutboundQueueId)).1
        let d := (d.Set "description" (Value.ofStringPtr routingProfile.Description)).1
        let d := (d.Set "instance_id" (Value.string instanceID)).1
        let d := (d.Set "name" (Value.ofStringPtr routingProfile.Name)).1
        let d := (d.Set "routing_profile_id"
          (Value.ofStringPtr routingProfile.RoutingProfileId)).1
        -- line 161: `*routingProfile.RoutingProfileId`
        match routingProfile.RoutingProfileId with
        | none => .panicked Panic.nilPointerDereference d calls
        | some routingProfileId =>
          let calls := calls ++ [Call.ListRoutingProfileQueues instanceID routingProfileId]
          match deps.getRoutingProfileQueueConfigs conn instanceID routingProfileId with
          | (_, some err) =>
            .returned (sdkdiag.AppendErrorf diags
              ("finding Connect Routing Profile Queue Configs Summary by Routing Profile ID ("
                ++ routingProfileId ++ "): " ++ err.Error)) d calls
          | (queueConfigs, none) =>
            let d := (d.Set "queue_configs" queueConfigs).1
            match d.Set "tags" (deps.KeyValueTagsMap routingProfile.Tags ignoreTagsConfig) with
            | (_, some err) =>
              .returned (sdkdiag.AppendErrorf diags ("setting tags: " ++ err.Error)) d calls
            | (d, none) =>
              let d := d.SetId
                (instanceID ++ ":" ++ aws.ToString routingProfile.RoutingProfileId)
              .returned diags d calls

/-- Go `dataSourceRoutingProfileRead` (`routing_profile_data_source.go`, lines
108-176). Lines 108-135 are here, the rest is
`dataSourceRoutingProfileRead.describe`. -/
def dataSourceRoutingProfileRead (deps : Deps) (ctx : Context) (d : ResourceData)
    (meta : AWSClient) : Outcome :=
  let diags : diag.Diagnostics := []
  let conn := meta.ConnectClient
  let ignoreTagsConfig := meta.IgnoreTagsConfig
  match (d.Get "instance_id").asString? with
  | none => .panicked Panic.typeAssertion d []
  | some instanceID =>
    let input : DescribeRoutingProfileInput :=
      { InstanceId := some instanceID, RoutingProfileId := none }
    match d.GetOk "routing_profile_id" with
    | (v, true) =>
      match v.asString? with
      | none => .panicked Panic.typeAssertion d []
      | some v =>
        dataSourceRoutingProfileRead.describe deps conn ignoreTagsConfig diags d instanceID
          { input with RoutingProfileId := some v } []
    | (_, false) =>
      match d.GetOk "name" with
      | (v, true) =>
        match v.asString? with
        | none => .panicked Panic.typeAssertion d []
        | some name =>
          match dataSourceGetRoutingProfileSummaryByName deps ctx conn instanceID name with
          | ((_, some err), calls) =>
            .returned (sdkdiag.AppendErrorf diags
              ("finding Connect Routing Profile Summary by name (" ++ name ++ "): "
                ++ err.Error)) d calls
          | ((none, none), calls) =>
            .returned (sdkdiag.AppendErrorf diags
              ("finding Connect Routing Profile Summary by name (" ++ name ++ "): not found"))
              d calls
          | ((some routingProfileSummary, none), calls) =>
            dataSourceRoutingProfileRead.describe deps conn ignoreTagsConfig diags d
              instanceID { input with RoutingProfileId := routingProfileSummary.Id } calls
      | (_, false) =>
        dataSourceRoutingProfileRead.describe deps conn ignoreTagsConfig diags d instanceID
          input []

/-- Lines 118-146 of `user_hierarchy_group_data_source.go`: the part of
`dataSourceUserHierarchyGroupRead` from the Describe call on. -/
def dataSourceUserHierarchyGroupRead.describe (deps : Deps) (conn : Client)
    (ignoreTagsConfig : IgnoreTagsConfig) (diags : diag.Diagnostics) (d : ResourceData)
    (instanceID : String) (input : DescribeUserHierarchyGroupInput) (calls : List Call) :
    Outcome :=
  let calls := calls ++ [Call.DescribeUserHierarchyGroup input]
  match conn.DescribeUserHierarchyGroup input with
  | (_, some err) =>
    .returned (sdkdiag.AppendErrorf diags ("getting Connect Hierarchy Group: " ++ err.Error))
      d calls
  | (resp, none) =>
    match resp.bind (fun r => r.HierarchyGroup) with
    | none =>
      .returned (sdkdiag.AppendErrorf diags "getting Connect Hierarchy Group: empty response")
        d calls
    | some hierarchyGroup =>
      let d := (d.Set "arn" (Value.ofStringPtr hierarchyGroup.Arn)).1
      let d := (d.Set "hierarchy_group_id" (Value.ofStringPtr hierarchyGroup.Id)).1
      let d := (d.Set "instance_id" (Value.string instanceID)).1
      let d := (d.Set "level_id" (Value.ofStringPtr hierarchyGroup.LevelId)).1
      let d := (d.Set "name" (Value.ofStringPtr hierarchyGroup.Name)).1
      match d.Set "hierarchy_path"
          (deps.flattenUserHierarchyPath hierarchyGroup.HierarchyPath) with
      | (_, some err) =>
        .returned (sdkdiag.AppendErrorf diags
          ("setting Connect User Hierarchy Group hierarchy_path (" ++ d.Id ++ "): "
            ++ err.Error)) d calls
      | (d, none) =>
        match d.Set "tags" (deps.KeyValueTagsMap hierarchyGroup.Tags ignoreTagsConfig) with
        | (_, some err) =>
          .returned (sdkdiag.AppendErrorf diags ("setting tags: " ++ err.Error)) d calls
        | (d, none) =>
          let d := d.SetId (instanceID ++ ":" ++ aws.ToString hierarchyGroup.Id)
          .returned diags d calls

/-- Go `dataSourceUserHierarchyGroupRead` (`user_hierarchy_group_data_source.go`,
lines 89-147). Lines 89-116 are here, the rest is
`dataSourceUserHierarchyGroupRead.describe`. -/
def dataSourceUserHierarchyGroupRead (deps : Deps) (ctx : Context) (d : ResourceData)
    (meta : AWSClient) : Outcome :=
  let diags : diag.Diagnostics := []
  let conn := meta.ConnectClient
  let ignoreTagsConfig := meta.IgnoreTagsConfig
  match (d.Get "instance_id").asString? with
  | none => .panicked Panic.typeAssertion d []
  | some instanceID =>
    let input : DescribeUserHierarchyGroupInput :=
      { InstanceId := some instanceID, HierarchyGroupId := none }
    match d.GetOk "hierarchy_group_id" with
    | (v, true) =>
      match v.asString? with
      | none => .panicked Panic.typeAssertion d []
      | some v =>
        dataSourceUserHierarchyGroupRead.describe deps conn ignoreTagsConfig diags d
          instanceID { input with HierarchyGroupId := some v } []
    | (_, false) =>
      match d.GetOk "name" with
      | (v, true) =>
        match v.asString? with
        | none => .panicked Panic.typeAssertion d []
        | some name =>
          match userHierarchyGroupSummaryByName deps ctx conn instanceID name with
          | ((_, some err), calls) =>
            .returned (sdkdiag.AppendErrorf diags
              ("finding Connect Hierarchy Group Summary by name (" ++ name ++ "): "
                ++ err.Error)) d calls
          | ((none, none), calls) =>
            .returned (sdkdiag.AppendErrorf diags
              ("finding Connect Hierarchy Group Summary by name (" ++ name ++ "): not found"))
              d calls
          | ((some hierarchyGroupSummary, none), calls) =>
            dataSourceUserHierarchyGroupRead.describe deps conn ignoreTagsConfig diags d
              instanceID { input with HierarchyGroupId := hierarchyGroupSummary.Id } calls
      | (_, false) =>
        dataSourceUserHierarchyGroupRead.describe deps conn ignoreTagsConfig diags d
          instanceID input []

/-- Go `DataSourceRoutingProfile` (`routing_profile_data_source.go`, lines 22-106). -/
def DataSourceRoutingProfile (deps : Deps) : schema.Resource :=
  { ReadWithoutTimeout := some (dataSourceRoutingProfileRead deps),
    Schema := [
      ("arn", { Type_ := .TypeString, Computed := true }),
      ("default_outbound_queue_id", { Type_ := .TypeString, Computed := true }),
      ("description", { Type_ := .TypeString, Computed := true }),
      ("instance_id",
        { Type_ := .TypeString,
          Required := true,
          ValidateFunc := some (validation.StringLenBetween 1 100) }),
      ("media_concurrencies",
        { Type_ := .TypeSet,
          Computed := true,
          Elem := some (.Resource { Schema := [
            ("channel", { Type_ := .TypeString, Computed := true }),
            ("concurrency", { Type_ := .TypeInt, Computed := true })] }) }),
      ("name",
        { Type_ := .TypeString,
          Optional := true,
          Computed := true,
          ExactlyOneOf := ["name", "routing_profile_id"] }),
      ("queue_configs",
        { Type_ := .TypeSet,
          Computed := true,
          Elem := some (.Resource { Schema := [
            ("channel", { Type_ := .TypeString, Computed := true }),
            ("delay", { Type_ := .TypeInt, Computed := true }),
            ("priority", { Type_ := .TypeInt, Computed := true }),
            ("queue_arn", { Type_ := .TypeString, Computed := true }),
            ("queue_id", { Type_ := .TypeString, Computed := true }),
            ("queue_name", { Type_ := .TypeString, Computed := true })] }) }),
      ("routing_profile_id",
        { Type_ := .TypeString,
          Optional := true,
          Computed := true,
          ExactlyOneOf := ["routing_profile_id", "name"] }),
      ("tags", deps.TagsSchemaComputed)] }

/-- Go `DataSourceUserHierarchyGroup` (`user_hierarchy_group_data_source.go`, lines
22-87). -/
def DataSourceUserHierarchyGroup (deps : Deps) : schema.Resource :=
  { ReadWithoutTimeout := some (dataSourceUserHierarchyGroupRead deps),
    Schema := [
      ("arn", { Type_ := .TypeString, Computed := true }),
      ("hierarchy_group_id",
        { Type_ := .TypeString,
          Optional := true,
          Computed := true,
          ExactlyOneOf := ["hierarchy_group_id", "name"] }),
      ("hierarchy_path",
        { Type_ := .TypeList,
          Computed := true,
          Elem := some (.Resource { Schema := [
            ("level_one", deps.userHierarchyPathLevelSchema),
            ("level_two", deps.userHierarchyPathLevelSchema),
            ("level_three", deps.userHierarchyPathLevelSchema),
            ("level_four", deps.userHierarchyPathLevelSchema),
            ("level_five", deps.userHierarchyPathLevelSchema)] }) }),
      ("instance_id",
        { Type_ := .TypeString,
          Required := true,
          ValidateFunc := some (validation.StringLenBetween 1 100) }),
      ("level_id", { Type_ := .TypeString, Computed := true }),
      ("name",
        { Type_ := .TypeString,
          Optional := true,
          Computed := true,
          ExactlyOneOf := ["name", "hierarchy_group_id"] }),
      ("tags", deps.TagsSchemaComputed)] }

end tfconnect

/-! ## Package `internal/service/batch` -/

/-- Modelled from the spec: the constant `names.AttrARN` is declared in package
`names`, outside the excerpt; it is the name of the ARN attribute. -/
def names.AttrARN : String := "arn"

namespace types

/-- Go `types.ServicePackageResourceTags` (the field the tables set). -/
structure ServicePackageResourceTags where
  IdentifierAttribute : String := ""
deriving DecidableEq, Repr

/-- Go `types.ServicePackageFrameworkDataSource`; `F` is the type of factories. -/
structure ServicePackageFrameworkDataSource (F : Type) where
  Factory : F
  Name : String
  Tags : Option ServicePackageResourceTags := none
deriving DecidableEq, Repr

/-- Go `types.ServicePackageFrameworkResource`. -/
structure ServicePackageFrameworkResource (F : Type) where
  Factory : F
  Name : String
  Tags : Option ServicePackageResourceTags := none
deriving DecidableEq, Repr

/-- Go `types.ServicePackageSDKDataSource`. -/
structure ServicePackageSDKDataSource (F : Type) where
  Factory : F
  TypeName : String
  Name : String
  Tags : Option ServicePackageResourceTags := none
deriving DecidableEq, Repr

/-- Go `types.ServicePackageSDKResource`. -/
structure ServicePackageSDKResource (F : Type) where
  Factory : F
  TypeName : String
  Name : String
  Tags : Option ServicePackageResourceTags := none
deriving DecidableEq, Repr

end types

namespace batch

/-- The factory functions of package `batch` that the tables refer to, by name (they
are declared outside the excerpt). -/
inductive Factory where
  | newJobDefinitionDataSource
  | newJobQueueResource
  | dataSourceComputeEnvironment
  | DataSourceJobQueue
  | dataSourceSchedulingPolicy
  | resourceComputeEnvironment
  | ResourceJobDefinition
  | resourceSchedulingPolicy
deriving DecidableEq, Repr

/-- Go `type servicePackage struct{}`. -/
inductive servicePackage where
  | mk
deriving DecidableEq, Repr

/-- Go `(*servicePackage).FrameworkDataSources` (lines 17-24). -/
def servicePackage.FrameworkDataSources (_p : servicePackage) (_ctx : Context) :
    List (types.ServicePackageFrameworkDataSource Factory) :=
  [{ Factory := Factory.newJobDefinitionDataSource,
     Name := "Job Definition" }]

/-- Go `(*servicePackage).FrameworkResources` (lines 26-36). -/
def servicePackage.FrameworkResources (_p : servicePackage) (_ctx : Context) :
    List (types.ServicePackageFrameworkResource Factory) :=
  [{ Factory := Factory.newJobQueueResource,
     Name := "Job Queue",
     Tags := some { IdentifierAttribute := names.AttrARN } }]

/-- Go `(*servicePackage).SDKDataSources` (lines 38-59). -/
def servicePackage.SDKDataSources (_p : servicePackage) (_ctx : Context) :
    List (types.ServicePackageSDKDataSource Factory) :=
  [{ Factory := Factory.dataSourceComputeEnvironment,
     TypeName := "aws_batch_compute_environment",
     Name := "Compute Environment",
     Tags := some {} },
   { Factory := Factory.DataSourceJobQueue,
     TypeName := "aws_batch_job_queue",
     Name := "Job Queue",
     Tags := some {} },
   { Factory := Factory.dataSourceSchedulingPolicy,
     TypeName := "aws_batch_scheduling_policy",
     Name := "Scheduling Policy",
     Tags := some {} }]

/-- Go `(*servicePackage).SDKResources` (lines 61-88). -/
def servicePackage.SDKResources (_p : servicePackage) (_ctx : Context) :
    List (types.ServicePackageSDKResource Factory) :=
  [{ Factory := Factory.resourceComputeEnvironment,
     TypeName := "aws_batch_compute_environment",
     Name := "Compute Environment",
     Tags := some { IdentifierAttribute := names.AttrARN } },
   { Factory := Factory.ResourceJobDefinition,
     TypeName := "aws_batch_job_definition",
     Name := "Job Definition",
     Tags := some { IdentifierAttribute := names.AttrARN } },
   { Factory := Factory.resourceSchedulingPolicy,
     TypeName := "aws_batch_scheduling_policy",
     Name := "Scheduling Policy",
     Tags := some { IdentifierAttribute := names.AttrARN } }]

end batch

/-! ## Concrete scenarios -/

/-- A context without deadline. -/
def exampleContext : Context := ⟨none⟩

namespace tfconnect

open connect

/-- Helpers that always succeed; the tags schema helper returns an Optional and
Computed map of strings. -/
def exampleDeps : Deps :=
  { ListRoutingProfilesMaxResults := 60,
    ListUserHierarchyGroupsMaxResults := 60,
    flattenRoutingProfileMediaConcurrencies := fun _ => Value.list [],
    getRoutingProfileQueueConfigs := fun _ _ _ => (Value.list [], none),
    flattenUserHierarchyPath := fun _ => Value.list [],
    userHierarchyPathLevelSchema := { Type_ := schema.ValueType.TypeList, Computed := true },
    TagsSchemaComputed :=
      { Type_ := schema.ValueType.TypeMap,
        Optional := true,
        Computed := true,
        Elem := some (schema.Elem.Schema { Type_ := schema.ValueType.TypeString }) },
    KeyValueTagsMap := fun _ _ => Value.map [] }

/-- Helpers in which the queue-config listing fails. -/
def exampleDepsQueueFailure : Deps :=
  { exampleDeps with
    getRoutingProfileQueueConfigs := fun _ _ _ => (Value.list [], some ⟨"queues unavailable"⟩) }

/-- Two pages of routing profiles; "alpha" occurs on both. -/
def exampleRoutingProfilePages : List ListRoutingProfilesOutput :=
  [⟨[⟨none, some "rp-1", some "alpha"⟩, ⟨none, some "rp-2", some "beta"⟩]⟩,
   ⟨[⟨none, some "rp-3", some "alpha"⟩]⟩]

/-- Two pages of hierarchy groups; "alpha" occurs on both. -/
def exampleHierarchyGroupPages : List ListUserHierarchyGroupsOutput :=
  [⟨[⟨none, some "hg-1", some "alpha"⟩, ⟨none, some "hg-2", some "beta"⟩]⟩,
   ⟨[⟨none, some "hg-3", some "alpha"⟩]⟩]

/-- A service in which every call succeeds; Describe echoes the requested
identifier. -/
def exampleClient : Client :=
  { ListRoutingProfiles := fun _ => exampleRoutingProfilePages.map Except.ok,
    DescribeRoutingProfile := fun input =>
      (some ⟨some { DefaultOutboundQueueId := none, Description := none,
                    MediaConcurrencies := [], Name := some "alpha",
                    RoutingProfileArn := none,
                    RoutingProfileId := input.RoutingProfileId, Tags := [] }⟩, none),
    ListUserHierarchyGroups := fun _ => exampleHierarchyGroupPages.map Except.ok,
    DescribeUserHierarchyGroup := fun input =>
      (some ⟨some { Arn := none, HierarchyPath := none, Id := input.HierarchyGroupId,
                    LevelId := none, Name := some "alpha", Tags := [] }⟩, none) }

/-- A service in which fetching the second list page fails. -/
def exampleClientListFailure : Client :=
  { exampleClient with
    ListRoutingProfiles := fun _ =>
      [Except.ok ⟨[⟨none, some "rp-1", some "alpha"⟩]⟩, Except.error ⟨"throttled"⟩,
       Except.ok ⟨[⟨none, some "rp-3", some "alpha"⟩]⟩],
    ListUserHierarchyGroups := fun _ =>
      [Except.ok ⟨[⟨none, some "hg-1", some "alpha"⟩]⟩, Except.error ⟨"throttled"⟩,
       Except.ok ⟨[⟨none, some "hg-3", some "alpha"⟩]⟩] }

/-- A service in which Describe fails. -/
def exampleClientDescribeFailure : Client :=
  { exampleClient with
    DescribeRoutingProfile := fun _ => (none, some ⟨"access denied"⟩),
    DescribeUserHierarchyGroup := fun _ => (none, some ⟨"access denied"⟩) }

/-- A service whose Describe responses carry no identifier. -/
def exampleClientNilId : Client :=
  { exampleClient with
    DescribeRoutingProfile := fun _ =>
      (some ⟨some { DefaultOutboundQueueId := none, Description := none,
                    MediaConcurrencies := [], Name := some "alpha",
                    RoutingProfileArn := none, RoutingProfileId := none, Tags := [] }⟩, none),
    DescribeUserHierarchyGroup := fun _ =>
      (some ⟨some { Arn := none, HierarchyPath := none, Id := none,
                    LevelId := none, Name := some "alpha", Tags := [] }⟩, none) }

/-- The `meta` argument around a client. -/
def exampleMeta (conn : Client) : AWSClient :=
  { ConnectClient := conn, IgnoreTagsConfig := ⟨[]⟩ }

/-- Resource data of instance "inst-1" with the given identifier and name attributes
(the empty string for an unset attribute), the ID "old", and no `Set` errors. -/
def exampleData (identifier name : String) : ResourceData :=
  { attrs := fun k =>
      if k = "instance_id" then Value.string "inst-1"
      else if k = "routing_profile_id" then Value.string identifier
      else if k = "hierarchy_group_id" then Value.string identifier
      else if k = "name" then Value.string name
      else Value.string "",
    id := "old",
    setError := fun _ _ => none,
    setIdCalls := [] }

end tfconnect

/-! ## Lemmas on the lookup loops -/

section Lemmas

variable {α : Type}

/-- The summary a scan of the pages for a property keeps: the last element, in page
order and then within-page order, that has the property. -/
theorem foldl_keep_last (p : α → Prop) [DecidablePred p] (l : List α) (r : Option α) :
    l.foldl (fun result qs => if p qs then some qs else result) r
      = ((l.filter fun x => decide (p x)).getLast?).or r := by
  induction l using List.reverseRecOn generalizing r with
  | nil => simp
  | append_singleton l a ih =>
    simp only [List.foldl_append, List.filter_append, ih, List.foldl_cons, List.foldl_nil]
    by_cases h : p a <;> simp [h, List.filter_cons, List.getLast?_append]

theorem getLast?_filter_some (p : α → Prop) [DecidablePred p] (l : List α) (s : α)
    (h : ((l.filter fun x => decide (p x)).getLast?) = some s) : s ∈ l ∧ p s := by
  have hm := List.mem_of_getLast?_eq_some h
  simpa [List.mem_filter] using hm

theorem getLast?_filter_none (p : α → Prop) [DecidablePred p] (l : List α) :
    ((l.filter fun x => decide (p x)).getLast?) = none ↔ ∀ x ∈ l, ¬ p x := by
  simp [List.getLast?_eq_none_iff, List.filter_eq_nil_iff]

theorem getLast?_filter_append_of_match (p : α → Prop) [DecidablePred p] (l₁ l₂ : List α)
    (h : ∃ x ∈ l₂, p x) :
    (((l₁ ++ l₂).filter fun x => decide (p x)).getLast?)
      = ((l₂.filter fun x => decide (p x)).getLast?) := by
  rw [List.filter_append, List.getLast?_append]
  cases hl : ((l₂.filter fun x => decide (p x)).getLast?) with
  | some s => simp
  | none =>
    exfalso
    obtain ⟨x, hx, hpx⟩ := h
    exact (getLast?_filter_none p l₂).1 hl x hx hpx

end Lemmas

namespace tfconnect

open connect

theorem routingProfile_loop_ok (input : ListRoutingProfilesInput) (name : String)
    (pages : List ListRoutingProfilesOutput) (r : Option awstypes.RoutingProfileSummary) :
    dataSourceGetRoutingProfileSummaryByName.loop input name (pages.map Except.ok) r
      = (((((pages.flatMap fun p => p.RoutingProfileSummaryList).filter
              fun s => decide (aws.ToString s.Name = name)).getLast?).or r, none),
          List.replicate pages.length (Call.ListRoutingProfiles input)) := by
  induction pages generalizing r with
  | nil => simp [dataSourceGetRoutingProfileSummaryByName.loop]
  | cons p ps ih =>
    simp only [List.map_cons, dataSourceGetRoutingProfileSummaryByName.loop, ih,
      dataSourceGetRoutingProfileSummaryByName.page, foldl_keep_last, List.flatMap_cons,
      List.filter_append, List.getLast?_append, List.length_cons, List.replicate_succ]
    simp [Option.or_assoc]

theorem routingProfile_loop_error (input : ListRoutingProfilesInput) (name : String)
    (oks : List ListRoutingProfilesOutput) (err : Err)
    (rest : List (Except Err ListRoutingProfilesOutput))
    (r : Option awstypes.RoutingProfileSummary) :
    dataSourceGetRoutingProfileSummaryByName.loop input name
        (oks.map Except.ok ++ Except.error err :: rest) r
      = ((none, some err), List.replicate (oks.length + 1) (Call.ListRoutingProfiles input)) := by
  induction oks generalizing r with
  | nil => simp [dataSourceGetRoutingProfileSummaryByName.loop]
  | cons p ps ih =>
    simp [dataSourceGetRoutingProfileSummaryByName.loop, ih, List.replicate_succ]

theorem hierarchyGroup_loop_ok (input : ListUserHierarchyGroupsInput) (name : String)
    (pages : List ListUserHierarchyGroupsOutput) (r : Option awstypes.HierarchyGroupSummary) :
    userHierarchyGroupSummaryByName.loop input name (pages.map Except.ok) r
      = (((((pages.flatMap fun p => p.UserHierarchyGroupSummaryList).filter
              fun s => decide (aws.ToString s.Name = name)).getLast?).or r, none),
          List.replicate pages.length (Call.ListUserHierarchyGroups input)) := by
  induction pages generalizing r with
  | nil => simp [userHierarchyGroupSummaryByName.loop]
  | cons p ps ih =>
    simp only [List.map_cons, userHierarchyGroupSummaryByName.loop, ih,
      userHierarchyGroupSummaryByName.page, foldl_keep_last, List.flatMap_cons,
      List.filter_append, List.getLast?_append, List.length_cons, List.replicate_succ]
    simp [Option.or_assoc]

theorem hierarchyGroup_loop_error (input : ListUserHierarchyGroupsInput) (name : String)
    (oks : List ListUserHierarchyGroupsOutput) (err : Err)
    (rest : List (Except Err ListUserHierarchyGroupsOutput))
    (r : Option awstypes.HierarchyGroupSummary) :
    userHierarchyGroupSummaryByName.loop input name
        (oks.map Except.ok ++ Except.error err :: rest) r
      = ((none, some err),
          List.replicate (oks.length + 1) (Call.ListUserHierarchyGroups input)) := by
  induction oks generalizing r with
  | nil => simp [userHierarchyGroupSummaryByName.loop]
  | cons p ps ih =>
    simp [userHierarchyGroupSummaryByName.loop, ih, List.replicate_succ]

/-- C1. When every list page is fetched without error,
`dataSourceGetRoutingProfileSummaryByName` and `userHierarchyGroupSummaryByName`
request each page once and return, with a nil error, the last summary (in page order,
then within-page order) whose Name, read through `aws.ToString`, equals the requested
name. Hence a non-nil result has that name, the result is nil exactly when no summary
on any page has that name, and a match on a later page replaces any earlier match. -/
theorem summaryByName_returns_last_match (deps : Deps) (ctx : Context) (conn : Client)
    (instanceID name : String) :
    (∀ pages : List ListRoutingProfilesOutput,
      conn.ListRoutingProfiles
          { InstanceId := some instanceID,
            MaxResults := some deps.ListRoutingProfilesMaxResults }
        = pages.map Except.ok →
      dataSourceGetRoutingProfileSummaryByName deps ctx conn instanceID name
          = ((((pages.flatMap fun p => p.RoutingProfileSummaryList).filter
                  fun s => decide (aws.ToString s.Name = name)).getLast?, none),
              List.replicate pages.length
                (Call.ListRoutingProfiles
                  { InstanceId := some instanceID,
                    MaxResults := some deps.ListRoutingProfilesMaxResults }))
        ∧ (∀ s, (dataSourceGetRoutingProfileSummaryByName deps ctx conn instanceID name).1.1
              = some s → aws.ToString s.Name = name)
        ∧ ((dataSourceGetRoutingProfileSummaryByName deps ctx conn instanceID name).1.1 = none
            ↔ ∀ p ∈ pages, ∀ s ∈ p.RoutingProfileSummaryList, aws.ToString s.Name ≠ name)
        ∧ (∀ earlier later, pages = earlier ++ later →
            (∃ p ∈ later, ∃ s ∈ p.RoutingProfileSummaryList, aws.ToString s.Name = name) →
            (dataSourceGetRoutingProfileSummaryByName deps ctx conn instanceID name).1.1
              = ((later.flatMap fun p => p.RoutingProfileSummaryList).filter
                  fun s => decide (aws.ToString s.Name = name)).getLast?))
    ∧ (∀ pages : List ListUserHierarchyGroupsOutput,
      conn.ListUserHierarchyGroups
          { InstanceId := some instanceID,
            MaxResults := some deps.ListUserHierarchyGroupsMaxResults }
        = pages.map Except.ok →
      userHierarchyGroupSummaryByName deps ctx conn instanceID name
          = ((((pages.flatMap fun p => p.UserHierarchyGroupSummaryList).filter
                  fun s => decide (aws.ToString s.Name = name)).getLast?, none),
              List.replicate pages.length
                (Call.ListUserHierarchyGroups
                  { InstanceId := some instanceID,
                    MaxResults := some deps.ListUserHierarchyGroupsMaxResults }))
        ∧ (∀ s, (userHierarchyGroupSummaryByName deps ctx conn instanceID name).1.1
              = some s → aws.ToString s.Name = name)
        ∧ ((userHierarchyGroupSummaryByName deps ctx conn instanceID name).1.1 = none
            ↔ ∀ p ∈ pages, ∀ s ∈ p.UserHierarchyGroupSummaryList, aws.ToString s.Name ≠ name)
        ∧ (∀ earlier later, pages = earlier ++ later →
            (∃ p ∈ later, ∃ s ∈ p.UserHierarchyGroupSummaryList, aws.ToString s.Name = name) →
            (userHierarchyGroupSummaryByName deps ctx conn instanceID name).1.1
              = ((later.flatMap fun p => p.UserHierarchyGroupSummaryList).filter
                  fun s => decide (aws.ToString s.Name = name)).getLast?)) := by
  refine ⟨?_, ?_⟩
  · intro pages h
    have hmain : dataSourceGetRoutingProfileSummaryByName deps ctx conn instanceID name
          = ((((pages.flatMap fun p => p.RoutingProfileSummaryList).filter
                  fun s => decide (aws.ToString s.Name = name)).getLast?, none),
              List.replicate pages.length
                (Call.ListRoutingProfiles
                  { InstanceId := some instanceID,
                    MaxResults := some deps.ListRoutingProfilesMaxResults })) := by
      simp only [dataSourceGetRoutingProfileSummaryByName, NewListRoutingProfilesPaginator, h,
        routingProfile_loop_ok, Option.or_none]
    refine ⟨hmain, ?_, ?_, ?_⟩
    · intro s hs
      rw [hmain] at hs
      exact (getLast?_filter_some (fun s => aws.ToString s.Name = name) _ s hs).2
    · rw [hmain]
      simp only [getLast?_filter_none (fun s : awstypes.RoutingProfileSummary =>
        aws.ToString s.Name = name), List.mem_flatMap]
      constructor
      · intro hall p hp s hs
        exact hall s ⟨p, hp, hs⟩
      · rintro hall s ⟨p, hp, hs⟩
        exact hall p hp s hs
    · intro earlier later hpages hex
      rw [hmain, hpages, List.flatMap_append]
      apply getLast?_filter_append_of_match (fun s : awstypes.RoutingProfileSummary =>
        aws.ToString s.Name = name)
      obtain ⟨p, hp, s, hs, hn⟩ := hex
      exact ⟨s, List.mem_flatMap.2 ⟨p, hp, hs⟩, hn⟩
  · intro pages h
    have hmain : userHierarchyGroupSummaryByName deps ctx conn instanceID name
          = ((((pages.flatMap fun p => p.UserHierarchyGroupSummaryList).filter
                  fun s => decide (aws.ToString s.Name = name)).getLast?, none),
              List.replicate pages.length
                (Call.ListUserHierarchyGroups
                  { InstanceId := some instanceID,
                    MaxResults := some deps.ListUserHierarchyGroupsMaxResults })) := by
      simp only [userHierarchyGroupSummaryByName, NewListUserHierarchyGroupsPaginator, h,
        hierarchyGroup_loop_ok, Option.or_none]
    refine ⟨hmain, ?_, ?_, ?_⟩
    · intro s hs
      rw [hmain] at hs
      exact (getLast?_filter_some (fun s => aws.ToString s.Name = name) _ s hs).2
    · rw [hmain]
      simp only [getLast?_filter_none (fun s : awstypes.HierarchyGroupSummary =>
        aws.ToString s.Name = name), List.mem_flatMap]
      constructor
      · intro hall p hp s hs
        exact hall s ⟨p, hp, hs⟩
      · rintro hall s ⟨p, hp, hs⟩
        exact hall p hp s hs
    · intro earlier later hpages hex
      rw [hmain, hpages, List.flatMap_append]
      apply getLast?_filter_append_of_match (fun s : awstypes.HierarchyGroupSummary =>
        aws.ToString s.Name = name)
      obtain ⟨p, hp, s, hs, hn⟩ := hex
      exact ⟨s, List.mem_flatMap.2 ⟨p, hp, hs⟩, hn⟩

/-- C2. When fetching some list page fails, `dataSourceGetRoutingProfileSummaryByName`
and `userHierarchyGroupSummaryByName` return a nil summary together with exactly the
error of the first failing page, whatever the earlier pages contained; the pages up to
and including the failing one are requested once each and nothing after it. -/
theorem summaryByName_forwards_first_error (deps : Deps) (ctx : Context) (conn : Client)
    (instanceID name : String) (err : Err) :
    (∀ (oks : List ListRoutingProfilesOutput)
        (rest : List (Except Err ListRoutingProfilesOutput)),
      conn.ListRoutingProfiles
          { InstanceId := some instanceID,
            MaxResults := some deps.ListRoutingProfilesMaxResults }
        = oks.map Except.ok ++ Except.error err :: rest →
      dataSourceGetRoutingProfileSummaryByName deps ctx conn instanceID name
        = ((none, some err),
            List.replicate (oks.length + 1)
              (Call.ListRoutingProfiles
                { InstanceId := some instanceID,
                  MaxResults := some deps.ListRoutingProfilesMaxResults })))
    ∧ (∀ (oks : List ListUserHierarchyGroupsOutput)
        (rest : List (Except Err ListUserHierarchyGroupsOutput)),
      conn.ListUserHierarchyGroups
          { InstanceId := some instanceID,
            MaxResults := some deps.ListUserHierarchyGroupsMaxResults }
        = oks.map Except.ok ++ Except.error err :: rest →
      userHierarchyGroupSummaryByName deps ctx conn instanceID name
        = ((none, some err),
            List.replicate (oks.length + 1)
              (Call.ListUserHierarchyGroups
                { InstanceId := some instanceID,
                  MaxResults := some deps.ListUserHierarchyGroupsMaxResults }))) := by
  refine ⟨?_, ?_⟩
  · intro oks rest h
    simp only [dataSourceGetRoutingProfileSummaryByName, NewListRoutingProfilesPaginator, h,
      routingProfile_loop_error]
  · intro oks rest h
    simp only [userHierarchyGroupSummaryByName, NewListUserHierarchyGroupsPaginator, h,
      hierarchyGroup_loop_error]

end tfconnect


theorem Set_id (d : ResourceData) (k : String) (v : Value) : (d.Set k v).1.id = d.id := by
  unfold ResourceData.Set; split <;> rfl

theorem Set_setIdCalls (d : ResourceData) (k : String) (v : Value) :
    (d.Set k v).1.setIdCalls = d.setIdCalls := by
  unfold ResourceData.Set; split <;> rfl

theorem Set_eq_id {d d' : ResourceData} {k : String} {v : Value} {e : Option Err}
    (h : d.Set k v = (d', e)) : d'.id = d.id ∧ d'.setIdCalls = d.setIdCalls := by
  have h1 := Set_id d k v
  have h2 := Set_setIdCalls d k v
  rw [h] at h1 h2
  exact ⟨h1, h2⟩

namespace tfconnect
open connect

theorem rp_describe_ids (deps : Deps) (conn : Client) (cfg : IgnoreTagsConfig)
    (d : ResourceData) (iid : String) (input : DescribeRoutingProfileInput)
    (calls : List Call) (diags : diag.Diagnostics) (d' : ResourceData) (cs : List Call)
    (h : dataSourceRoutingProfileRead.describe deps conn cfg [] d iid input calls
      = .returned diags d' cs) :
    (diags.HasError = true → d'.id = d.id ∧ d'.setIdCalls = d.setIdCalls)
    ∧ (d'.setIdCalls ≠ d.setIdCalls → diags = []) := by
  unfold dataSourceRoutingProfileRead.describe at h
  simp only [] at h
  split at h
  · simp at h; obtain ⟨h1, h2, h3⟩ := h; subst h2; simp
  · split at h
    · simp at h; obtain ⟨h1, h2, h3⟩ := h; subst h2; simp
    · split at h
      · simp at h; obtain ⟨h1, h2, h3⟩ := h; subst h2; simp
      · rename_i hset
        have := Set_eq_id hset
        split at h
        · simp at h
        · split at h
          · simp at h; obtain ⟨h1, h2, h3⟩ := h; subst h2; simp [Set_id, Set_setIdCalls, this]
          · split at h
            · simp at h; obtain ⟨h1, h2, h3⟩ := h; subst h2
              simp [Set_id, Set_setIdCalls, this]
            · simp at h; obtain ⟨h1, h2, h3⟩ := h; subst h1; simp [diag.Diagnostics.HasError]

theorem rp_describe_fail (deps : Deps) (conn : Client) (cfg : IgnoreTagsConfig)
    (d : ResourceData) (iid : String) (input : DescribeRoutingProfileInput)
    (calls : List Call) (err : Err) (h : (conn.DescribeRoutingProfile input).2 = some err) :
    dataSourceRoutingProfileRead.describe deps conn cfg [] d iid input calls
      = .returned [⟨diag.Severity.Error, "getting Connect Routing Profile: " ++ err.Error, ""⟩]
          d (calls ++ [Call.DescribeRoutingProfile input]) := by
  unfold dataSourceRoutingProfileRead.describe
  simp only []
  split
  · rename_i heq
    rw [heq] at h
    simp at h
    simp [sdkdiag.AppendErrorf, h]
  · rename_i heq
    rw [heq] at h
    simp at h

theorem rp_describe_calls (deps : Deps) (conn : Client) (cfg : IgnoreTagsConfig)
    (d : ResourceData) (iid : String) (input : DescribeRoutingProfileInput)
    (calls : List Call) :
    ∃ rest, (dataSourceRoutingProfileRead.describe deps conn cfg [] d iid input calls).calls
        = calls ++ Call.DescribeRoutingProfile input :: rest
      ∧ ∀ c ∈ rest, ∃ a b, c = Call.ListRoutingProfileQueues a b := by
  unfold dataSourceRoutingProfileRead.describe
  simp only []
  split
  · exact ⟨[], by simp [Outcome.calls]⟩
  · split
    · exact ⟨[], by simp [Outcome.calls]⟩
    · split
      · exact ⟨[], by simp [Outcome.calls]⟩
      · split
        · exact ⟨[], by simp [Outcome.calls]⟩
        · split
          · exact ⟨[_], List.append_assoc _ _ _, by simp⟩
          · split
            · exact ⟨[_], List.append_assoc _ _ _, by simp⟩
            · exact ⟨[_], List.append_assoc _ _ _, by simp⟩

theorem rp_describe_nil (deps : Deps) (conn : Client) (cfg : IgnoreTagsConfig)
    (d : ResourceData) (iid : String) (input : DescribeRoutingProfileInput)
    (calls : List Call) (resp : DescribeRoutingProfileOutput) (rp : awstypes.RoutingProfile)
    (h1 : conn.DescribeRoutingProfile input = (some resp, none))
    (h2 : resp.RoutingProfile = some rp) (h3 : rp.RoutingProfileId = none)
    (h4 : (d.Set "media_concurrencies"
      (deps.flattenRoutingProfileMediaConcurrencies rp.MediaConcurrencies)).2 = none) :
    ∃ d', dataSourceRoutingProfileRead.describe deps conn cfg [] d iid input calls
      = .panicked Panic.nilPointerDereference d' (calls ++ [Call.DescribeRoutingProfile input])
      ∧ d'.id = d.id ∧ d'.setIdCalls = d.setIdCalls := by
  unfold dataSourceRoutingProfileRead.describe
  simp only [h1, Option.bind, h2]
  split
  · rename_i heq
    rw [heq] at h4
    simp at h4
  · rename_i heq
    have := Set_eq_id heq
    simp only [h3]
    exact ⟨_, rfl, by simp [Set_id, this], by simp [Set_setIdCalls, this]⟩

theorem rp_describe_queue_fail (deps : Deps) (conn : Client) (cfg : IgnoreTagsConfig)
    (d : ResourceData) (iid : String) (input : DescribeRoutingProfileInput)
    (calls : List Call) (a b : String) (err : Err)
    (hcalls : ∀ c ∈ calls, ∃ i, c = Call.ListRoutingProfiles i)
    (hmem : Call.ListRoutingProfileQueues a b
      ∈ (dataSourceRoutingProfileRead.describe deps conn cfg [] d iid input calls).calls)
    (h : (deps.getRoutingProfileQueueConfigs conn a b).2 = some err) :
    ∃ d', dataSourceRoutingProfileRead.describe deps conn cfg [] d iid input calls
      = .returned [⟨diag.Severity.Error,
            "finding Connect Routing Profile Queue Configs Summary by Routing Profile ID ("
              ++ b ++ "): " ++ err.Error, ""⟩]
          d' (calls ++ [Call.DescribeRoutingProfile input, Call.ListRoutingProfileQueues a b])
      ∧ d'.id = d.id ∧ d'.setIdCalls = d.setIdCalls := by
  have hnot : Call.ListRoutingProfileQueues a b ∉ calls := by
    intro hin
    obtain ⟨i, hi⟩ := hcalls _ hin
    cases hi
  generalize ho : dataSourceRoutingProfileRead.describe deps conn cfg [] d iid input calls = o
    at hmem ⊢
  unfold dataSourceRoutingProfileRead.describe at ho
  simp only [] at ho
  split at ho
  · subst ho; simp [Outcome.calls, hnot] at hmem
  · split at ho
    · subst ho; simp [Outcome.calls, hnot] at hmem
    · split at ho
      · subst ho; simp [Outcome.calls, hnot] at hmem
      · rename_i hset
        have := Set_eq_id hset
        split at ho
        · subst ho; simp [Outcome.calls, hnot] at hmem
        · split at ho
          · rename_i hq
            subst ho
            simp [Outcome.calls, hnot] at hmem
            obtain ⟨ha, hb⟩ := hmem
            subst ha hb
            rw [hq] at h
            simp at h
            subst h
            refine ⟨?w, ?h1, ?h2, ?h3⟩
            case h1 => rw [List.append_assoc]; exact rfl
            case h2 => simp [Set_id, this]
            case h3 => simp [Set_setIdCalls, this]
          · rename_i rid hrid x qc hq
            have hab : a = iid ∧ b = rid := by
              split at ho <;> subst ho <;> simpa [Outcome.calls, hnot] using hmem
            obtain ⟨ha, hb⟩ := hab
            subst ha hb
            rw [hq] at h
            simp at h

theorem rp_describe_success (deps : Deps) (conn : Client) (cfg : IgnoreTagsConfig)
    (d : ResourceData) (iid : String) (input : DescribeRoutingProfileInput)
    (calls : List Call) (diags : diag.Diagnostics) (d' : ResourceData) (cs : List Call)
    (h : dataSourceRoutingProfileRead.describe deps conn cfg [] d iid input calls
      = .returned diags d' cs)
    (hok : diags.HasError = false) :
    ∃ resp rp rid, conn.DescribeRoutingProfile input = (some resp, none)
      ∧ resp.RoutingProfile = some rp ∧ rp.RoutingProfileId = some rid
      ∧ d'.id = iid ++ ":" ++ rid ∧ d'.setIdCalls = d.setIdCalls ++ [iid ++ ":" ++ rid]
      ∧ diags = [] := by
  unfold dataSourceRoutingProfileRead.describe at h
  simp only [] at h
  split at h
  · simp at h; obtain ⟨h1, h2, h3⟩ := h; subst h1
    simp [sdkdiag.AppendErrorf, diag.Diagnostics.HasError] at hok
  · rename_i hd
    split at h
    · simp at h; obtain ⟨h1, h2, h3⟩ := h; subst h1
      simp [sdkdiag.AppendErrorf, diag.Diagnostics.HasError] at hok
    · rename_i hrp
      split at h
      · simp at h; obtain ⟨h1, h2, h3⟩ := h; subst h1
        simp [sdkdiag.AppendFromErr, diag.Diagnostics.HasError] at hok
      · rename_i hset
        have := Set_eq_id hset
        split at h
        · simp at h
        · rename_i hrid
          split at h
          · simp at h; obtain ⟨h1, h2, h3⟩ := h; subst h1
            simp [sdkdiag.AppendErrorf, diag.Diagnostics.HasError] at hok
          · split at h
            · simp at h; obtain ⟨h1, h2, h3⟩ := h; subst h1
              simp [sdkdiag.AppendErrorf, diag.Diagnostics.HasError] at hok
            · rename_i hset2
              have h2 := Set_eq_id hset2
              simp at h; obtain ⟨h1, h2', h3⟩ := h; subst h1 h2'
              obtain ⟨resp, hresp, hrp2⟩ := Option.bind_eq_some.1 hrp
              subst hresp
              refine ⟨resp, _, _, hd, hrp2, hrid, ?_, ?_, rfl⟩
              · simp [ResourceData.SetId, hrid, aws.ToString]
              · simp [ResourceData.SetId, hrid, aws.ToString, h2, Set_setIdCalls, this]
theorem rp_loop_calls (input : ListRoutingProfilesInput) (name : String)
    (script : List (Except Err ListRoutingProfilesOutput))
    (r : Option awstypes.RoutingProfileSummary) :
    ∀ c ∈ (dataSourceGetRoutingProfileSummaryByName.loop input name script r).2,
      c = Call.ListRoutingProfiles input := by
  induction script generalizing r with
  | nil => simp [dataSourceGetRoutingProfileSummaryByName.loop]
  | cons x xs ih =>
    cases x with
    | error e => simp [dataSourceGetRoutingProfileSummaryByName.loop]
    | ok p =>
      intro c hc
      simp only [dataSourceGetRoutingProfileSummaryByName.loop, List.mem_cons] at hc
      rcases hc with hc | hc
      · exact hc
      · exact ih _ c hc

theorem rp_byName_calls (deps : Deps) (ctx : Context) (conn : Client)
    (instanceID name : String) :
    ∀ c ∈ (dataSourceGetRoutingProfileSummaryByName deps ctx conn instanceID name).2,
      ∃ i, c = Call.ListRoutingProfiles i := by
  intro c hc
  exact ⟨_, rp_loop_calls _ _ _ _ c hc⟩

theorem asString?_eq_some {v : Value} {s : String} (h : v.asString? = some s) :
    v = Value.string s := by
  cases v <;> simp [Value.asString?] at h
  rw [h]

theorem diags?_eq_some {o : Outcome} {diags : diag.Diagnostics}
    (h : o.diags? = some diags) : ∃ d' cs, o = .returned diags d' cs := by
  cases o with
  | returned ds d' cs =>
    simp only [Outcome.diags?, Option.some.injEq] at h
    exact ⟨d', cs, by rw [h]⟩
  | panicked p d' cs => simp [Outcome.diags?] at h

theorem rp_read_cases (deps : Deps) (ctx : Context) (d : ResourceData) (meta : AWSClient) :
    dataSourceRoutingProfileRead deps ctx d meta = .panicked Panic.typeAssertion d []
    ∨ (∃ msg cs, dataSourceRoutingProfileRead deps ctx d meta
          = .returned [⟨diag.Severity.Error, msg, ""⟩] d cs
        ∧ ∀ c ∈ cs, ∃ i, c = Call.ListRoutingProfiles i)
    ∨ (∃ iid input cs, d.attrs "instance_id" = Value.string iid
        ∧ (∀ c ∈ cs, ∃ i, c = Call.ListRoutingProfiles i)
        ∧ dataSourceRoutingProfileRead deps ctx d meta
          = dataSourceRoutingProfileRead.describe deps meta.ConnectClient
              meta.IgnoreTagsConfig [] d iid input cs) := by
  unfold dataSourceRoutingProfileRead
  simp only []
  split
  · exact Or.inl rfl
  · rename_i iid hiid
    have hiid := asString?_eq_some hiid
    split
    · split
      · exact Or.inl rfl
      · exact Or.inr (Or.inr ⟨iid, _, [], hiid, by simp, rfl⟩)
    · split
      · split
        · exact Or.inl rfl
        · rename_i name hname
          split
          · rename_i hby
            refine Or.inr (Or.inl ⟨_, _, rfl, ?_⟩)
            have := rp_byName_calls deps ctx meta.ConnectClient iid name
            rw [hby] at this
            exact this
          · rename_i hby
            refine Or.inr (Or.inl ⟨_, _, rfl, ?_⟩)
            have := rp_byName_calls deps ctx meta.ConnectClient iid name
            rw [hby] at this
            exact this
          · rename_i hby
            refine Or.inr (Or.inr ⟨iid, _, _, hiid, ?_, rfl⟩)
            have := rp_byName_calls deps ctx meta.ConnectClient iid name
            rw [hby] at this
            exact this
      · exact Or.inr (Or.inr ⟨iid, _, [], hiid, by simp, rfl⟩)

/-! ### The hierarchy group read -/

theorem hg_describe_ids (deps : Deps) (conn : Client) (cfg : IgnoreTagsConfig)
    (d : ResourceData) (iid : String) (input : DescribeUserHierarchyGroupInput)
    (calls : List Call) (diags : diag.Diagnostics) (d' : ResourceData) (cs : List Call)
    (h : dataSourceUserHierarchyGroupRead.describe deps conn cfg [] d iid input calls
      = .returned diags d' cs) :
    (diags.HasError = true → d'.id = d.id ∧ d'.setIdCalls = d.setIdCalls)
    ∧ (d'.setIdCalls ≠ d.setIdCalls → diags = []) := by
  unfold dataSourceUserHierarchyGroupRead.describe at h
  simp only [] at h
  split at h
  · simp at h; obtain ⟨h1, h2, h3⟩ := h; subst h2; simp
  · split at h
    · simp at h; obtain ⟨h1, h2, h3⟩ := h; subst h2; simp
    · split at h
      · simp at h; obtain ⟨h1, h2, h3⟩ := h; subst h2; simp [Set_id, Set_setIdCalls]
      · rename_i hset
        have := Set_eq_id hset
        split at h
        · simp at h; obtain ⟨h1, h2, h3⟩ := h; subst h2
          simp [Set_id, Set_setIdCalls, this]
        · simp at h; obtain ⟨h1, h2, h3⟩ := h; subst h1; simp [diag.Diagnostics.HasError]

theorem hg_describe_fail (deps : Deps) (conn : Client) (cfg : IgnoreTagsConfig)
    (d : ResourceData) (iid : String) (input : DescribeUserHierarchyGroupInput)
    (calls : List Call) (err : Err)
    (h : (conn.DescribeUserHierarchyGroup input).2 = some err) :
    dataSourceUserHierarchyGroupRead.describe deps conn cfg [] d iid input calls
      = .returned [⟨diag.Severity.Error, "getting Connect Hierarchy Group: " ++ err.Error, ""⟩]
          d (calls ++ [Call.DescribeUserHierarchyGroup input]) := by
  unfold dataSourceUserHierarchyGroupRead.describe
  simp only []
  split
  · rename_i heq
    rw [heq] at h
    simp at h
    simp [sdkdiag.AppendErrorf, h]
  · rename_i heq
    rw [heq] at h
    simp at h

theorem hg_describe_calls (deps : Deps) (conn : Client) (cfg : IgnoreTagsConfig)
    (d : ResourceData) (iid : String) (input : DescribeUserHierarchyGroupInput)
    (calls : List Call) :
    (dataSourceUserHierarchyGroupRead.describe deps conn cfg [] d iid input calls).calls
      = calls ++ [Call.DescribeUserHierarchyGroup input] := by
  unfold dataSourceUserHierarchyGroupRead.describe
  simp only []
  split
  · rfl
  · split
    · rfl
    · split
      · rfl
      · split <;> rfl

theorem hg_describe_success (deps : Deps) (conn : Client) (cfg : IgnoreTagsConfig)
    (d : ResourceData) (iid : String) (input : DescribeUserHierarchyGroupInput)
    (calls : List Call) (diags : diag.Diagnostics) (d' : ResourceData) (cs : List Call)
    (h : dataSourceUserHierarchyGroupRead.describe deps conn cfg [] d iid input calls
      = .returned diags d' cs)
    (hok : diags.HasError = false) :
    ∃ resp hg, conn.DescribeUserHierarchyGroup input = (some resp, none)
      ∧ resp.HierarchyGroup = some hg
      ∧ d'.id = iid ++ ":" ++ aws.ToString hg.Id
      ∧ d'.setIdCalls = d.setIdCalls ++ [iid ++ ":" ++ aws.ToString hg.Id]
      ∧ diags = [] := by
  unfold dataSourceUserHierarchyGroupRead.describe at h
  simp only [] at h
  split at h
  · simp at h; obtain ⟨h1, h2, h3⟩ := h; subst h1
    simp [sdkdiag.AppendErrorf, diag.Diagnostics.HasError] at hok
  · rename_i hd
    split at h
    · simp at h; obtain ⟨h1, h2, h3⟩ := h; subst h1
      simp [sdkdiag.AppendErrorf, diag.Diagnostics.HasError] at hok
    · rename_i hhg
      split at h
      · simp at h; obtain ⟨h1, h2, h3⟩ := h; subst h1
        simp [sdkdiag.AppendErrorf, diag.Diagnostics.HasError] at hok
      · rename_i hset
        have := Set_eq_id hset
        split at h
        · simp at h; obtain ⟨h1, h2, h3⟩ := h; subst h1
          simp [sdkdiag.AppendErrorf, diag.Diagnostics.HasError] at hok
        · rename_i hset2
          have h2 := Set_eq_id hset2
          simp at h; obtain ⟨h1, h2', h3⟩ := h; subst h1 h2'
          obtain ⟨resp, hresp, hhg2⟩ := Option.bind_eq_some.1 hhg
          subst hresp
          refine ⟨resp, _, hd, hhg2, ?_, ?_, rfl⟩
          · simp [ResourceData.SetId]
          · simp [ResourceData.SetId, h2, Set_setIdCalls, this]

theorem hg_loop_calls (input : ListUserHierarchyGroupsInput) (name : String)
    (script : List (Except Err ListUserHierarchyGroupsOutput))
    (r : Option awstypes.HierarchyGroupSummary) :
    ∀ c ∈ (userHierarchyGroupSummaryByName.loop input name script r).2,
      c = Call.ListUserHierarchyGroups input := by
  induction script generalizing r with
  | nil => simp [userHierarchyGroupSummaryByName.loop]
  | cons x xs ih =>
    cases x with
    | error e => simp [userHierarchyGroupSummaryByName.loop]
    | ok p =>
      intro c hc
      simp only [userHierarchyGroupSummaryByName.loop, List.mem_cons] at hc
      rcases hc with hc | hc
      · exact hc
      · exact ih _ c hc

theorem hg_byName_calls (deps : Deps) (ctx : Context) (conn : Client)
    (instanceID name : String) :
    ∀ c ∈ (userHierarchyGroupSummaryByName deps ctx conn instanceID name).2,
      ∃ i, c = Call.ListUserHierarchyGroups i := by
  intro c hc
  exact ⟨_, hg_loop_calls _ _ _ _ c hc⟩

theorem hg_read_cases (deps : Deps) (ctx : Context) (d : ResourceData) (meta : AWSClient) :
    dataSourceUserHierarchyGroupRead deps ctx d meta = .panicked Panic.typeAssertion d []
    ∨ (∃ msg cs, dataSourceUserHierarchyGroupRead deps ctx d meta
          = .returned [⟨diag.Severity.Error, msg, ""⟩] d cs
        ∧ ∀ c ∈ cs, ∃ i, c = Call.ListUserHierarchyGroups i)
    ∨ (∃ iid input cs, d.attrs "instance_id" = Value.string iid
        ∧ (∀ c ∈ cs, ∃ i, c = Call.ListUserHierarchyGroups i)
        ∧ dataSourceUserHierarchyGroupRead deps ctx d meta
          = dataSourceUserHierarchyGroupRead.describe deps meta.ConnectClient
              meta.IgnoreTagsConfig [] d iid input cs) := by
  unfold dataSourceUserHierarchyGroupRead
  simp only []
  split
  · exact Or.inl rfl
  · rename_i iid hiid
    have hiid := asString?_eq_some hiid
    split
    · split
      · exact Or.inl rfl
      · exact Or.inr (Or.inr ⟨iid, _, [], hiid, by simp, rfl⟩)
    · split
      · split
        · exact Or.inl rfl
        · rename_i name hname
          split
          · rename_i hby
            refine Or.inr (Or.inl ⟨_, _, rfl, ?_⟩)
            have := hg_byName_calls deps ctx meta.ConnectClient iid name
            rw [hby] at this
            exact this
          · rename_i hby
            refine Or.inr (Or.inl ⟨_, _, rfl, ?_⟩)
            have := hg_byName_calls deps ctx meta.ConnectClient iid name
            rw [hby] at this
            exact this
          · rename_i hby
            refine Or.inr (Or.inr ⟨iid, _, _, hiid, ?_, rfl⟩)
            have := hg_byName_calls deps ctx meta.ConnectClient iid name
            rw [hby] at this
            exact this
      · exact Or.inr (Or.inr ⟨iid, _, [], hiid, by simp, rfl⟩)

/-! ### The three ways a read chooses its Describe request -/

theorem rp_read_by_id (deps : Deps) (ctx : Context) (d : ResourceData) (meta : AWSClient)
    (iid v : String) (h1 : d.attrs "instance_id" = Value.string iid)
    (h2 : d.attrs "routing_profile_id" = Value.string v) (h3 : v ≠ "") :
    dataSourceRoutingProfileRead deps ctx d meta
      = dataSourceRoutingProfileRead.describe deps meta.ConnectClient meta.IgnoreTagsConfig []
          d iid { InstanceId := some iid, RoutingProfileId := some v } [] := by
  have hz : (Value.string v).isZero = false := by simp [Value.isZero, h3]
  simp [dataSourceRoutingProfileRead, ResourceData.Get, ResourceData.GetOk, h1, h2, hz,
    Value.asString?]

theorem rp_read_by_neither (deps : Deps) (ctx : Context) (d : ResourceData) (meta : AWSClient)
    (iid : String) (h1 : d.attrs "instance_id" = Value.string iid)
    (h2 : (d.attrs "routing_profile_id").isZero = true)
    (h3 : (d.attrs "name").isZero = true) :
    dataSourceRoutingProfileRead deps ctx d meta
      = dataSourceRoutingProfileRead.describe deps meta.ConnectClient meta.IgnoreTagsConfig []
          d iid { InstanceId := some iid, RoutingProfileId := none } [] := by
  simp [dataSourceRoutingProfileRead, ResourceData.Get, ResourceData.GetOk, h1, h2, h3,
    Value.asString?]

theorem rp_read_name_err (deps : Deps) (ctx : Context) (d : ResourceData) (meta : AWSClient)
    (iid name : String) (h1 : d.attrs "instance_id" = Value.string iid)
    (h2 : (d.attrs "routing_profile_id").isZero = true)
    (h3 : d.attrs "name" = Value.string name) (h4 : name ≠ "")
    (r : Option awstypes.RoutingProfileSummary) (err : Err) (cs : List Call)
    (h : dataSourceGetRoutingProfileSummaryByName deps ctx meta.ConnectClient iid name
      = ((r, some err), cs)) :
    dataSourceRoutingProfileRead deps ctx d meta
      = .returned [⟨diag.Severity.Error,
          "finding Connect Routing Profile Summary by name (" ++ name ++ "): " ++ err.Error,
          ""⟩] d cs := by
  have hz : (Value.string name).isZero = false := by simp [Value.isZero, h4]
  simp [dataSourceRoutingProfileRead, ResourceData.Get, ResourceData.GetOk, h1, h2, h3, hz,
    Value.asString?, h, sdkdiag.AppendErrorf]

theorem rp_read_name_none (deps : Deps) (ctx : Context) (d : ResourceData) (meta : AWSClient)
    (iid name : String) (h1 : d.attrs "instance_id" = Value.string iid)
    (h2 : (d.attrs "routing_profile_id").isZero = true)
    (h3 : d.attrs "name" = Value.string name) (h4 : name ≠ "") (cs : List Call)
    (h : dataSourceGetRoutingProfileSummaryByName deps ctx meta.ConnectClient iid name
      = ((none, none), cs)) :
    dataSourceRoutingProfileRead deps ctx d meta
      = .returned [⟨diag.Severity.Error,
          "finding Connect Routing Profile Summary by name (" ++ name ++ "): not found",
          ""⟩] d cs := by
  have hz : (Value.string name).isZero = false := by simp [Value.isZero, h4]
  simp [dataSourceRoutingProfileRead, ResourceData.Get, ResourceData.GetOk, h1, h2, h3, hz,
    Value.asString?, h, sdkdiag.AppendErrorf]

theorem rp_read_name_some (deps : Deps) (ctx : Context) (d : ResourceData) (meta : AWSClient)
    (iid name : String) (h1 : d.attrs "instance_id" = Value.string iid)
    (h2 : (d.attrs "routing_profile_id").isZero = true)
    (h3 : d.attrs "name" = Value.string name) (h4 : name ≠ "")
    (s : awstypes.RoutingProfileSummary) (cs : List Call)
    (h : dataSourceGetRoutingProfileSummaryByName deps ctx meta.ConnectClient iid name
      = ((some s, none), cs)) :
    dataSourceRoutingProfileRead deps ctx d meta
      = dataSourceRoutingProfileRead.describe deps meta.ConnectClient meta.IgnoreTagsConfig []
          d iid { InstanceId := some iid, RoutingProfileId := s.Id } cs := by
  have hz : (Value.string name).isZero = false := by simp [Value.isZero, h4]
  simp [dataSourceRoutingProfileRead, ResourceData.Get, ResourceData.GetOk, h1, h2, h3, hz,
    Value.asString?, h]

theorem hg_read_by_id (deps : Deps) (ctx : Context) (d : ResourceData) (meta : AWSClient)
    (iid v : String) (h1 : d.attrs "instance_id" = Value.string iid)
    (h2 : d.attrs "hierarchy_group_id" = Value.string v) (h3 : v ≠ "") :
    dataSourceUserHierarchyGroupRead deps ctx d meta
      = dataSourceUserHierarchyGroupRead.describe deps meta.ConnectClient
          meta.IgnoreTagsConfig [] d iid
          { InstanceId := some iid, HierarchyGroupId := some v } [] := by
  have hz : (Value.string v).isZero = false := by simp [Value.isZero, h3]
  simp [dataSourceUserHierarchyGroupRead, ResourceData.Get, ResourceData.GetOk, h1, h2, hz,
    Value.asString?]

theorem hg_read_by_neither (deps : Deps) (ctx : Context) (d : ResourceData) (meta : AWSClient)
    (iid : String) (h1 : d.attrs "instance_id" = Value.string iid)
    (h2 : (d.attrs "hierarchy_group_id").isZero = true)
    (h3 : (d.attrs "name").isZero = true) :
    dataSourceUserHierarchyGroupRead deps ctx d meta
      = dataSourceUserHierarchyGroupRead.describe deps meta.ConnectClient
          meta.IgnoreTagsConfig [] d iid
          { InstanceId := some iid, HierarchyGroupId := none } [] := by
  simp [dataSourceUserHierarchyGroupRead, ResourceData.Get, ResourceData.GetOk, h1, h2, h3,
    Value.asString?]

theorem hg_read_name_err (deps : Deps) (ctx : Context) (d : ResourceData) (meta : AWSClient)
    (iid name : String) (h1 : d.attrs "instance_id" = Value.string iid)
    (h2 : (d.attrs "hierarchy_group_id").isZero = true)
    (h3 : d.attrs "name" = Value.string name) (h4 : name ≠ "")
    (r : Option awstypes.HierarchyGroupSummary) (err : Err) (cs : List Call)
    (h : userHierarchyGroupSummaryByName deps ctx meta.ConnectClient iid name
      = ((r, some err), cs)) :
    dataSourceUserHierarchyGroupRead deps ctx d meta
      = .returned [⟨diag.Severity.Error,
          "finding Connect Hierarchy Group Summary by name (" ++ name ++ "): " ++ err.Error,
          ""⟩] d cs := by
  have hz : (Value.string name).isZero = false := by simp [Value.isZero, h4]
  simp [dataSourceUserHierarchyGroupRead, ResourceData.Get, ResourceData.GetOk, h1, h2, h3, hz,
    Value.asString?, h, sdkdiag.AppendErrorf]

theorem hg_read_name_none (deps : Deps) (ctx : Context) (d : ResourceData) (meta : AWSClient)
    (iid name : String) (h1 : d.attrs "instance_id" = Value.string iid)
    (h2 : (d.attrs "hierarchy_group_id").isZero = true)
    (h3 : d.attrs "name" = Value.string name) (h4 : name ≠ "") (cs : List Call)
    (h : userHierarchyGroupSummaryByName deps ctx meta.ConnectClient iid name
      = ((none, none), cs)) :
    dataSourceUserHierarchyGroupRead deps ctx d meta
      = .returned [⟨diag.Severity.Error,
          "finding Connect Hierarchy Group Summary by name (" ++ name ++ "): not found",
          ""⟩] d cs := by
  have hz : (Value.string name).isZero = false := by simp [Value.isZero, h4]
  simp [dataSourceUserHierarchyGroupRead, ResourceData.Get, ResourceData.GetOk, h1, h2, h3, hz,
    Value.asString?, h, sdkdiag.AppendErrorf]

theorem hg_read_name_some (deps : Deps) (ctx : Context) (d : ResourceData) (meta : AWSClient)
    (iid name : String) (h1 : d.attrs "instance_id" = Value.string iid)
    (h2 : (d.attrs "hierarchy_group_id").isZero = true)
    (h3 : d.attrs "name" = Value.string name) (h4 : name ≠ "")
    (s : awstypes.HierarchyGroupSummary) (cs : List Call)
    (h : userHierarchyGroupSummaryByName deps ctx meta.ConnectClient iid name
      = ((some s, none), cs)) :
    dataSourceUserHierarchyGroupRead deps ctx d meta
      = dataSourceUserHierarchyGroupRead.describe deps meta.ConnectClient
          meta.IgnoreTagsConfig [] d iid
          { InstanceId := some iid, HierarchyGroupId := s.Id } cs := by
  have hz : (Value.string name).isZero = false := by simp [Value.isZero, h4]
  simp [dataSourceUserHierarchyGroupRead, ResourceData.Get, ResourceData.GetOk, h1, h2, h3, hz,
    Value.asString?, h]

/-! ### Claims on the reads -/

/-- C3. Every failure of an SDK call in `dataSourceRoutingProfileRead` and
`dataSourceUserHierarchyGroupRead` (a list page of the lookup by name, the Describe
call, and for routing profiles the queue-config listing) makes the read return one
error diagnostic whose message is the contextual text followed by the text of the
underlying error; the failed call is the last SDK call of the run and is issued
once. -/
theorem read_reports_sdk_failure (deps : Deps) (ctx : Context) (d : ResourceData)
    (meta : AWSClient) :
    (∀ (iid name : String) (oks : List ListRoutingProfilesOutput) (err : Err)
        (rest : List (Except Err ListRoutingProfilesOutput)),
      d.attrs "instance_id" = Value.string iid →
      (d.attrs "routing_profile_id").isZero = true →
      d.attrs "name" = Value.string name → name ≠ "" →
      meta.ConnectClient.ListRoutingProfiles
          { InstanceId := some iid, MaxResults := some deps.ListRoutingProfilesMaxResults }
        = oks.map Except.ok ++ Except.error err :: rest →
      dataSourceRoutingProfileRead deps ctx d meta
        = .returned [⟨diag.Severity.Error,
            "finding Connect Routing Profile Summary by name (" ++ name ++ "): " ++ err.Error,
            ""⟩] d
            (List.replicate (oks.length + 1)
              (Call.ListRoutingProfiles
                { InstanceId := some iid,
                  MaxResults := some deps.ListRoutingProfilesMaxResults })))
    ∧ (∀ (input : DescribeRoutingProfileInput) (err : Err),
      Call.DescribeRoutingProfile input ∈ (dataSourceRoutingProfileRead deps ctx d meta).calls →
      (meta.ConnectClient.DescribeRoutingProfile input).2 = some err →
      ∃ cs, dataSourceRoutingProfileRead deps ctx d meta
          = .returned [⟨diag.Severity.Error,
              "getting Connect Routing Profile: " ++ err.Error, ""⟩] d
              (cs ++ [Call.DescribeRoutingProfile input])
        ∧ ∀ c ∈ cs, ∃ i, c = Call.ListRoutingProfiles i)
    ∧ (∀ (a b : String) (err : Err),
      Call.ListRoutingProfileQueues a b
        ∈ (dataSourceRoutingProfileRead deps ctx d meta).calls →
      (deps.getRoutingProfileQueueConfigs meta.ConnectClient a b).2 = some err →
      ∃ d' cs input, dataSourceRoutingProfileRead deps ctx d meta
          = .returned [⟨diag.Severity.Error,
              "finding Connect Routing Profile Queue Configs Summary by Routing Profile ID ("
                ++ b ++ "): " ++ err.Error, ""⟩] d'
              (cs ++ [Call.DescribeRoutingProfile input, Call.ListRoutingProfileQueues a b])
        ∧ ∀ c ∈ cs, ∃ i, c = Call.ListRoutingProfiles i)
    ∧ (∀ (iid name : String) (oks : List ListUserHierarchyGroupsOutput) (err : Err)
        (rest : List (Except Err ListUserHierarchyGroupsOutput)),
      d.attrs "instance_id" = Value.string iid →
      (d.attrs "hierarchy_group_id").isZero = true →
      d.attrs "name" = Value.string name → name ≠ "" →
      meta.ConnectClient.ListUserHierarchyGroups
          { InstanceId := some iid,
            MaxResults := some deps.ListUserHierarchyGroupsMaxResults }
        = oks.map Except.ok ++ Except.error err :: rest →
      dataSourceUserHierarchyGroupRead deps ctx d meta
        = .returned [⟨diag.Severity.Error,
            "finding Connect Hierarchy Group Summary by name (" ++ name ++ "): " ++ err.Error,
            ""⟩] d
            (List.replicate (oks.length + 1)
              (Call.ListUserHierarchyGroups
                { InstanceId := some iid,
                  MaxResults := some deps.ListUserHierarchyGroupsMaxResults })))
    ∧ (∀ (input : DescribeUserHierarchyGroupInput) (err : Err),
      Call.DescribeUserHierarchyGroup input
        ∈ (dataSourceUserHierarchyGroupRead deps ctx d meta).calls →
      (meta.ConnectClient.DescribeUserHierarchyGroup input).2 = some err →
      ∃ cs, dataSourceUserHierarchyGroupRead deps ctx d meta
          = .returned [⟨diag.Severity.Error,
              "getting Connect Hierarchy Group: " ++ err.Error, ""⟩] d
              (cs ++ [Call.DescribeUserHierarchyGroup input])
        ∧ ∀ c ∈ cs, ∃ i, c = Call.ListUserHierarchyGroups i) := by
  refine ⟨?_, ?_, ?_, ?_, ?_⟩
  · intro iid name oks err rest h1 h2 h3 h4 h
    apply rp_read_name_err deps ctx d meta iid name h1 h2 h3 h4 none
    simp only [dataSourceGetRoutingProfileSummaryByName, NewListRoutingProfilesPaginator, h,
      routingProfile_loop_error]
  · intro input err hmem herr
    rcases rp_read_cases deps ctx d meta with h | ⟨msg, cs, h, hcs⟩ | ⟨iid, input0, cs, _, hcs, h⟩
    · rw [h] at hmem; simp [Outcome.calls] at hmem
    · rw [h] at hmem
      obtain ⟨i, hi⟩ := hcs _ hmem
      cases hi
    · rw [h] at hmem ⊢
      obtain ⟨rest, hc, hrest⟩ := rp_describe_calls deps meta.ConnectClient
        meta.IgnoreTagsConfig d iid input0 cs
      rw [hc] at hmem
      rcases List.mem_append.1 hmem with hm | hm
      · obtain ⟨i, hi⟩ := hcs _ hm
        cases hi
      · rcases List.mem_cons.1 hm with hm | hm
        · cases hm
          exact ⟨cs, rp_describe_fail deps _ _ d iid input cs err herr, hcs⟩
        · obtain ⟨a, b, hab⟩ := hrest _ hm
          cases hab
  · intro a b err hmem herr
    rcases rp_read_cases deps ctx d meta with h | ⟨msg, cs, h, hcs⟩ | ⟨iid, input0, cs, _, hcs, h⟩
    · rw [h] at hmem; simp [Outcome.calls] at hmem
    · rw [h] at hmem
      obtain ⟨i, hi⟩ := hcs _ hmem
      cases hi
    · rw [h] at hmem ⊢
      obtain ⟨d', hd', _, _⟩ := rp_describe_queue_fail deps meta.ConnectClient
        meta.IgnoreTagsConfig d iid input0 cs a b err hcs hmem herr
      exact ⟨d', cs, input0, hd', hcs⟩
  · intro iid name oks err rest h1 h2 h3 h4 h
    apply hg_read_name_err deps ctx d meta iid name h1 h2 h3 h4 none
    simp only [userHierarchyGroupSummaryByName, NewListUserHierarchyGroupsPaginator, h,
      hierarchyGroup_loop_error]
  · intro input err hmem herr
    rcases hg_read_cases deps ctx d meta with h | ⟨msg, cs, h, hcs⟩ | ⟨iid, input0, cs, _, hcs, h⟩
    · rw [h] at hmem; simp [Outcome.calls] at hmem
    · rw [h] at hmem
      obtain ⟨i, hi⟩ := hcs _ hmem
      cases hi
    · rw [h] at hmem ⊢
      rw [hg_describe_calls] at hmem
      rcases List.mem_append.1 hmem with hm | hm
      · obtain ⟨i, hi⟩ := hcs _ hm
        cases hi
      · simp only [List.mem_singleton] at hm
        cases hm
        exact ⟨cs, hg_describe_fail deps _ _ d iid input cs err herr, hcs⟩

/-- C10. In both reads the resource ID is set only on full success: if the returned
diagnostics contain an error, `SetId` was not called and the ID is unchanged; if
`SetId` was called, the returned diagnostics contain no error. -/
theorem read_sets_id_only_on_success (deps : Deps) (ctx : Context) (d : ResourceData)
    (meta : AWSClient) (diags : diag.Diagnostics) :
    ((dataSourceRoutingProfileRead deps ctx d meta).diags? = some diags →
      (diags.HasError = true →
        (dataSourceRoutingProfileRead deps ctx d meta).data.setIdCalls = d.setIdCalls
        ∧ (dataSourceRoutingProfileRead deps ctx d meta).data.Id = d.Id)
      ∧ ((dataSourceRoutingProfileRead deps ctx d meta).data.setIdCalls ≠ d.setIdCalls →
        diags.HasError = false))
    ∧ ((dataSourceUserHierarchyGroupRead deps ctx d meta).diags? = some diags →
      (diags.HasError = true →
        (dataSourceUserHierarchyGroupRead deps ctx d meta).data.setIdCalls = d.setIdCalls
        ∧ (dataSourceUserHierarchyGroupRead deps ctx d meta).data.Id = d.Id)
      ∧ ((dataSourceUserHierarchyGroupRead deps ctx d meta).data.setIdCalls ≠ d.setIdCalls →
        diags.HasError = false)) := by
  refine ⟨?_, ?_⟩
  · intro hdiags
    obtain ⟨d', cs, hret⟩ := diags?_eq_some hdiags
    rw [hret]
    simp only [Outcome.data]
    rcases rp_read_cases deps ctx d meta with h | ⟨msg, cs0, h, _⟩ | ⟨iid, input0, cs0, _, _, h⟩
    · rw [h] at hret; cases hret
    · rw [h] at hret
      cases hret
      simp
    · rw [h] at hret
      obtain ⟨h1, h2⟩ := rp_describe_ids deps _ _ d iid input0 cs0 diags d' cs hret
      refine ⟨fun he => ⟨(h1 he).2, (h1 he).1⟩, fun hne => ?_⟩
      rw [h2 hne]
      rfl
  · intro hdiags
    obtain ⟨d', cs, hret⟩ := diags?_eq_some hdiags
    rw [hret]
    simp only [Outcome.data]
    rcases hg_read_cases deps ctx d meta with h | ⟨msg, cs0, h, _⟩ | ⟨iid, input0, cs0, _, _, h⟩
    · rw [h] at hret; cases hret
    · rw [h] at hret
      cases hret
      simp
    · rw [h] at hret
      obtain ⟨h1, h2⟩ := hg_describe_ids deps _ _ d iid input0 cs0 diags d' cs hret
      refine ⟨fun he => ⟨(h1 he).2, (h1 he).1⟩, fun hne => ?_⟩
      rw [h2 hne]
      rfl

/-- C4. A successful `dataSourceRoutingProfileRead` or
`dataSourceUserHierarchyGroupRead` sets the resource ID to the configured
`instance_id` attribute, a colon, and the identifier of the Describe response it
accepted (`RoutingProfileId`, respectively `HierarchyGroup.Id`); for hierarchy groups
a nil identifier is encoded as the empty string. -/
theorem read_success_sets_id (deps : Deps) (ctx : Context) (d : ResourceData)
    (meta : AWSClient) (diags : diag.Diagnostics) :
    ((dataSourceRoutingProfileRead deps ctx d meta).diags? = some diags →
      diags.HasError = false →
      ∃ iid input resp rp rid, d.attrs "instance_id" = Value.string iid
        ∧ Call.DescribeRoutingProfile input
          ∈ (dataSourceRoutingProfileRead deps ctx d meta).calls
        ∧ meta.ConnectClient.DescribeRoutingProfile input = (some resp, none)
        ∧ resp.RoutingProfile = some rp
        ∧ rp.RoutingProfileId = some rid
        ∧ (dataSourceRoutingProfileRead deps ctx d meta).data.Id = iid ++ ":" ++ rid)
    ∧ ((dataSourceUserHierarchyGroupRead deps ctx d meta).diags? = some diags →
      diags.HasError = false →
      ∃ iid input resp hg, d.attrs "instance_id" = Value.string iid
        ∧ Call.DescribeUserHierarchyGroup input
          ∈ (dataSourceUserHierarchyGroupRead deps ctx d meta).calls
        ∧ meta.ConnectClient.DescribeUserHierarchyGroup input = (some resp, none)
        ∧ resp.HierarchyGroup = some hg
        ∧ (dataSourceUserHierarchyGroupRead deps ctx d meta).data.Id
          = iid ++ ":" ++ aws.ToString hg.Id
        ∧ (hg.Id = none →
          (dataSourceUserHierarchyGroupRead deps ctx d meta).data.Id = iid ++ ":")) := by
  refine ⟨?_, ?_⟩
  · intro hdiags hok
    obtain ⟨d', cs, hret⟩ := diags?_eq_some hdiags
    rw [hret]
    simp only [Outcome.data, Outcome.calls]
    rcases rp_read_cases deps ctx d meta with h | ⟨msg, cs0, h, _⟩ | ⟨iid, input0, cs0, hiid, _, h⟩
    · rw [h] at hret; cases hret
    · rw [h] at hret
      cases hret
      simp [diag.Diagnostics.HasError] at hok
    · rw [h] at hret
      obtain ⟨resp, rp, rid, hd, hrp, hrid, hid, _, _⟩ :=
        rp_describe_success deps _ _ d iid input0 cs0 diags d' cs hret hok
      refine ⟨iid, input0, resp, rp, rid, hiid, ?_, hd, hrp, hrid, hid⟩
      obtain ⟨rest, hc, _⟩ := rp_describe_calls deps meta.ConnectClient
        meta.IgnoreTagsConfig d iid input0 cs0
      rw [hret] at hc
      simp only [Outcome.calls] at hc
      rw [hc]
      simp
  · intro hdiags hok
    obtain ⟨d', cs, hret⟩ := diags?_eq_some hdiags
    rw [hret]
    simp only [Outcome.data, Outcome.calls]
    rcases hg_read_cases deps ctx d meta with h | ⟨msg, cs0, h, _⟩ | ⟨iid, input0, cs0, hiid, _, h⟩
    · rw [h] at hret; cases hret
    · rw [h] at hret
      cases hret
      simp [diag.Diagnostics.HasError] at hok
    · rw [h] at hret
      obtain ⟨resp, hg, hd, hhg, hid, _, _⟩ :=
        hg_describe_success deps _ _ d iid input0 cs0 diags d' cs hret hok
      refine ⟨iid, input0, resp, hg, hiid, ?_, hd, hhg, hid, ?_⟩
      · have hc := hg_describe_calls deps meta.ConnectClient meta.IgnoreTagsConfig d iid
          input0 cs0
        rw [hret] at hc
        simp only [Outcome.calls] at hc
        rw [hc]
        simp
      · intro hnil
        rw [ResourceData.Id, hid, hnil]
        simp [aws.ToString]

/-- C7. When the identifier attribute is not set, the name attribute is set, and the
lookup by name fetches every page without error and finds no summary with that name,
the read returns one error diagnostic whose message ends in
"by name (<name>): not found", and Describe is never called. -/
theorem read_name_not_found (deps : Deps) (ctx : Context) (d : ResourceData)
    (meta : AWSClient) (iid name : String) :
    (∀ pages : List ListRoutingProfilesOutput,
      d.attrs "instance_id" = Value.string iid →
      (d.attrs "routing_profile_id").isZero = true →
      d.attrs "name" = Value.string name → name ≠ "" →
      meta.ConnectClient.ListRoutingProfiles
          { InstanceId := some iid, MaxResults := some deps.ListRoutingProfilesMaxResults }
        = pages.map Except.ok →
      (∀ p ∈ pages, ∀ s ∈ p.RoutingProfileSummaryList, aws.ToString s.Name ≠ name) →
      dataSourceRoutingProfileRead deps ctx d meta
          = .returned [⟨diag.Severity.Error,
              "finding Connect Routing Profile Summary " ++
                ("by name (" ++ name ++ "): not found"), ""⟩] d
              (List.replicate pages.length
                (Call.ListRoutingProfiles
                  { InstanceId := some iid,
                    MaxResults := some deps.ListRoutingProfilesMaxResults }))
        ∧ ∀ input, Call.DescribeRoutingProfile input
            ∉ (dataSourceRoutingProfileRead deps ctx d meta).calls)
    ∧ (∀ pages : List ListUserHierarchyGroupsOutput,
      d.attrs "instance_id" = Value.string iid →
      (d.attrs "hierarchy_group_id").isZero = true →
      d.attrs "name" = Value.string name → name ≠ "" →
      meta.ConnectClient.ListUserHierarchyGroups
          { InstanceId := some iid,
            MaxResults := some deps.ListUserHierarchyGroupsMaxResults }
        = pages.map Except.ok →
      (∀ p ∈ pages, ∀ s ∈ p.UserHierarchyGroupSummaryList, aws.ToString s.Name ≠ name) →
      dataSourceUserHierarchyGroupRead deps ctx d meta
          = .returned [⟨diag.Severity.Error,
              "finding Connect Hierarchy Group Summary " ++
                ("by name (" ++ name ++ "): not found"), ""⟩] d
              (List.replicate pages.length
                (Call.ListUserHierarchyGroups
                  { InstanceId := some iid,
                    MaxResults := some deps.ListUserHierarchyGroupsMaxResults }))
        ∧ ∀ input, Call.DescribeUserHierarchyGroup input
            ∉ (dataSourceUserHierarchyGroupRead deps ctx d meta).calls) := by
  refine ⟨?_, ?_⟩
  · intro pages h1 h2 h3 h4 h hno
    have hby : dataSourceGetRoutingProfileSummaryByName deps ctx meta.ConnectClient iid name
        = ((none, none), List.replicate pages.length
            (Call.ListRoutingProfiles
              { InstanceId := some iid,
                MaxResults := some deps.ListRoutingProfilesMaxResults })) := by
      have hnone := (getLast?_filter_none
        (fun s : awstypes.RoutingProfileSummary => aws.ToString s.Name = name)
        (pages.flatMap fun p => p.RoutingProfileSummaryList)).2 (by
          intro s hs
          obtain ⟨p, hp, hsp⟩ := List.mem_flatMap.1 hs
          exact hno p hp s hsp)
      simp only [dataSourceGetRoutingProfileSummaryByName, NewListRoutingProfilesPaginator, h,
        routingProfile_loop_ok, Option.or_none, hnone]
    have hread := rp_read_name_none deps ctx d meta iid name h1 h2 h3 h4 _ hby
    have hmsg : "finding Connect Routing Profile Summary by name (" ++ name ++ "): not found"
        = "finding Connect Routing Profile Summary " ++
            ("by name (" ++ name ++ "): not found") := by
      rw [← String.append_assoc, ← String.append_assoc]
      rfl
    rw [hmsg] at hread
    refine ⟨hread, ?_⟩
    intro input hmem
    rw [hread] at hmem
    simp [Outcome.calls] at hmem
  · intro pages h1 h2 h3 h4 h hno
    have hby : userHierarchyGroupSummaryByName deps ctx meta.ConnectClient iid name
        = ((none, none), List.replicate pages.length
            (Call.ListUserHierarchyGroups
              { InstanceId := some iid,
                MaxResults := some deps.ListUserHierarchyGroupsMaxResults })) := by
      have hnone := (getLast?_filter_none
        (fun s : awstypes.HierarchyGroupSummary => aws.ToString s.Name = name)
        (pages.flatMap fun p => p.UserHierarchyGroupSummaryList)).2 (by
          intro s hs
          obtain ⟨p, hp, hsp⟩ := List.mem_flatMap.1 hs
          exact hno p hp s hsp)
      simp only [userHierarchyGroupSummaryByName, NewListUserHierarchyGroupsPaginator, h,
        hierarchyGroup_loop_ok, Option.or_none, hnone]
    have hread := hg_read_name_none deps ctx d meta iid name h1 h2 h3 h4 _ hby
    have hmsg : "finding Connect Hierarchy Group Summary by name (" ++ name ++ "): not found"
        = "finding Connect Hierarchy Group Summary " ++
            ("by name (" ++ name ++ "): not found") := by
      rw [← String.append_assoc, ← String.append_assoc]
      rfl
    rw [hmsg] at hread
    refine ⟨hread, ?_⟩
    intro input hmem
    rw [hread] at hmem
    simp [Outcome.calls] at hmem

/-- C8. The identifier attribute takes precedence over the name. When
`routing_profile_id` (respectively `hierarchy_group_id`) is set to a non-empty value,
the first SDK call is Describe with the configured instance ID and exactly that
identifier, and no list call is made, whatever `name` is. When the identifier is unset
and `name` is set, the Describe request that follows the list calls carries the Id of
the summary the lookup by name returned. When neither is set, the Describe request
carries no identifier. -/
theorem read_identifier_precedence (deps : Deps) (ctx : Context) (d : ResourceData)
    (meta : AWSClient) (iid : String) :
    (∀ v : String, d.attrs "instance_id" = Value.string iid →
      d.attrs "routing_profile_id" = Value.string v → v ≠ "" →
      ∃ rest, (dataSourceRoutingProfileRead deps ctx d meta).calls
          = Call.DescribeRoutingProfile { InstanceId := some iid, RoutingProfileId := some v }
            :: rest
        ∧ ∀ c ∈ rest, ∃ a b, c = Call.ListRoutingProfileQueues a b)
    ∧ (∀ (name : String) (s : awstypes.RoutingProfileSummary) (lcalls : List Call),
      d.attrs "instance_id" = Value.string iid →
      (d.attrs "routing_profile_id").isZero = true →
      d.attrs "name" = Value.string name → name ≠ "" →
      dataSourceGetRoutingProfileSummaryByName deps ctx meta.ConnectClient iid name
        = ((some s, none), lcalls) →
      ∃ rest, (dataSourceRoutingProfileRead deps ctx d meta).calls
          = lcalls
            ++ Call.DescribeRoutingProfile { InstanceId := some iid, RoutingProfileId := s.Id }
            :: rest
        ∧ (∀ c ∈ lcalls, ∃ i, c = Call.ListRoutingProfiles i)
        ∧ ∀ c ∈ rest, ∃ a b, c = Call.ListRoutingProfileQueues a b)
    ∧ (d.attrs "instance_id" = Value.string iid →
      (d.attrs "routing_profile_id").isZero = true → (d.attrs "name").isZero = true →
      ∃ rest, (dataSourceRoutingProfileRead deps ctx d meta).calls
          = Call.DescribeRoutingProfile { InstanceId := some iid, RoutingProfileId := none }
            :: rest
        ∧ ∀ c ∈ rest, ∃ a b, c = Call.ListRoutingProfileQueues a b)
    ∧ (∀ v : String, d.attrs "instance_id" = Value.string iid →
      d.attrs "hierarchy_group_id" = Value.string v → v ≠ "" →
      (dataSourceUserHierarchyGroupRead deps ctx d meta).calls
        = [Call.DescribeUserHierarchyGroup
            { InstanceId := some iid, HierarchyGroupId := some v }])
    ∧ (∀ (name : String) (s : awstypes.HierarchyGroupSummary) (lcalls : List Call),
      d.attrs "instance_id" = Value.string iid →
      (d.attrs "hierarchy_group_id").isZero = true →
      d.attrs "name" = Value.string name → name ≠ "" →
      userHierarchyGroupSummaryByName deps ctx meta.ConnectClient iid name
        = ((some s, none), lcalls) →
      (dataSourceUserHierarchyGroupRead deps ctx d meta).calls
          = lcalls ++ [Call.DescribeUserHierarchyGroup
              { InstanceId := some iid, HierarchyGroupId := s.Id }]
        ∧ ∀ c ∈ lcalls, ∃ i, c = Call.ListUserHierarchyGroups i)
    ∧ (d.attrs "instance_id" = Value.string iid →
      (d.attrs "hierarchy_group_id").isZero = true → (d.attrs "name").isZero = true →
      (dataSourceUserHierarchyGroupRead deps ctx d meta).calls
        = [Call.DescribeUserHierarchyGroup
            { InstanceId := some iid, HierarchyGroupId := none }]) := by
  refine ⟨?_, ?_, ?_, ?_, ?_, ?_⟩
  · intro v h1 h2 h3
    rw [rp_read_by_id deps ctx d meta iid v h1 h2 h3]
    simpa using rp_describe_calls deps meta.ConnectClient meta.IgnoreTagsConfig d iid
      { InstanceId := some iid, RoutingProfileId := some v } []
  · intro name s lcalls h1 h2 h3 h4 h
    rw [rp_read_name_some deps ctx d meta iid name h1 h2 h3 h4 s lcalls h]
    obtain ⟨rest, hc, hrest⟩ := rp_describe_calls deps meta.ConnectClient
      meta.IgnoreTagsConfig d iid { InstanceId := some iid, RoutingProfileId := s.Id } lcalls
    refine ⟨rest, hc, ?_, hrest⟩
    have := rp_byName_calls deps ctx meta.ConnectClient iid name
    rw [h] at this
    exact this
  · intro h1 h2 h3
    rw [rp_read_by_neither deps ctx d meta iid h1 h2 h3]
    simpa using rp_describe_calls deps meta.ConnectClient meta.IgnoreTagsConfig d iid
      { InstanceId := some iid, RoutingProfileId := none } []
  · intro v h1 h2 h3
    rw [hg_read_by_id deps ctx d meta iid v h1 h2 h3, hg_describe_calls]
    rfl
  · intro name s lcalls h1 h2 h3 h4 h
    rw [hg_read_name_some deps ctx d meta iid name h1 h2 h3 h4 s lcalls h, hg_describe_calls]
    refine ⟨rfl, ?_⟩
    have := hg_byName_calls deps ctx meta.ConnectClient iid name
    rw [h] at this
    exact this
  · intro h1 h2 h3
    rw [hg_read_by_neither deps ctx d meta iid h1 h2 h3, hg_describe_calls]
    rfl

/-- C9 (the code departs from the claim). When the Describe response passes the
empty-response check, its `RoutingProfileId` is nil and setting `media_concurrencies`
succeeds, `dataSourceRoutingProfileRead` dereferences the nil pointer at line 161
(`*routingProfile.RoutingProfileId`) and panics: it reaches neither an error
diagnostic nor `SetId`. -/
theorem routingProfileRead_nil_id_panics (deps : Deps) (ctx : Context) (d : ResourceData)
    (meta : AWSClient) (input : DescribeRoutingProfileInput)
    (resp : DescribeRoutingProfileOutput) (rp : awstypes.RoutingProfile)
    (hmem : Call.DescribeRoutingProfile input
      ∈ (dataSourceRoutingProfileRead deps ctx d meta).calls)
    (h1 : meta.ConnectClient.DescribeRoutingProfile input = (some resp, none))
    (h2 : resp.RoutingProfile = some rp) (h3 : rp.RoutingProfileId = none)
    (h4 : (d.Set "media_concurrencies"
      (deps.flattenRoutingProfileMediaConcurrencies rp.MediaConcurrencies)).2 = none) :
    ∃ d' cs, dataSourceRoutingProfileRead deps ctx d meta
        = .panicked Panic.nilPointerDereference d' cs
      ∧ d'.setIdCalls = d.setIdCalls := by
  rcases rp_read_cases deps ctx d meta with h | ⟨msg, cs, h, hcs⟩ | ⟨iid, input0, cs, _, hcs, h⟩
  · rw [h] at hmem; simp [Outcome.calls] at hmem
  · rw [h] at hmem
    obtain ⟨i, hi⟩ := hcs _ hmem
    cases hi
  · rw [h] at hmem ⊢
    obtain ⟨rest, hc, hrest⟩ := rp_describe_calls deps meta.ConnectClient
      meta.IgnoreTagsConfig d iid input0 cs
    rw [hc] at hmem
    rcases List.mem_append.1 hmem with hm | hm
    · obtain ⟨i, hi⟩ := hcs _ hm
      cases hi
    · rcases List.mem_cons.1 hm with hm | hm
      · cases hm
        obtain ⟨d', hd', _, hs⟩ := rp_describe_nil deps meta.ConnectClient
          meta.IgnoreTagsConfig d iid input cs resp rp h1 h2 h3 h4
        exact ⟨d', _, hd', hs⟩
      · obtain ⟨a, b, hab⟩ := hrest _ hm
        cases hab

/-! ### Schemas -/

theorem stringLenBetween_accepts (min max : Nat) (v : Value) :
    validation.StringLenBetween min max v = true
      ↔ ∃ str, v = Value.string str ∧ min ≤ str.utf8ByteSize ∧ str.utf8ByteSize ≤ max := by
  cases v <;> simp [validation.StringLenBetween]

/-- C5 (amended). In the schemas of `DataSourceRoutingProfile` and
`DataSourceUserHierarchyGroup` (whose keys are pairwise distinct), `instance_id` is the
only Required attribute among those whose schema the file declares itself, and the only
Required top-level attribute whenever `tftags.TagsSchemaComputed()` is not Required; its
validation accepts exactly the strings of length 1 to 100; the two lookup keys are
Optional and Computed and the `ExactlyOneOf` list of each holds exactly those two keys;
every other top-level attribute except `tags` is Computed and neither Required nor
Optional; the schema of `tags` is the one `tftags.TagsSchemaComputed()` returns. -/
theorem dataSource_schema_flags (deps : Deps) :
    (((DataSourceRoutingProfile deps).Schema.map Prod.fst).Nodup
      ∧ (∀ e ∈ (DataSourceRoutingProfile deps).Schema, e.1 ≠ "tags" →
          (e.2.Required = true ↔ e.1 = "instance_id"))
      ∧ (deps.TagsSchemaComputed.Required = false →
          ∀ e ∈ (DataSourceRoutingProfile deps).Schema, (e.2.Required = true ↔ e.1 = "instance_id"))
      ∧ (∃ s f, ("instance_id", s) ∈ (DataSourceRoutingProfile deps).Schema
          ∧ s.ValidateFunc = some f
          ∧ ∀ v, f v = true
            ↔ ∃ str, v = Value.string str ∧ 1 ≤ str.utf8ByteSize ∧ str.utf8ByteSize ≤ 100)
      ∧ (∀ key, key = "name" ∨ key = "routing_profile_id" →
          ∃ s, (key, s) ∈ (DataSourceRoutingProfile deps).Schema
            ∧ s.Optional = true ∧ s.Computed = true ∧ s.Required = false
            ∧ s.ExactlyOneOf.length = 2
            ∧ ∀ k, k ∈ s.ExactlyOneOf ↔ (k = "name" ∨ k = "routing_profile_id"))
      ∧ (∀ e ∈ (DataSourceRoutingProfile deps).Schema,
          e.1 ≠ "instance_id" → e.1 ≠ "name" → e.1 ≠ "routing_profile_id" → e.1 ≠ "tags" →
          e.2.Computed = true ∧ e.2.Required = false ∧ e.2.Optional = false)
      ∧ (∀ s, ("tags", s) ∈ (DataSourceRoutingProfile deps).Schema ↔ s = deps.TagsSchemaComputed))
    ∧ (((DataSourceUserHierarchyGroup deps).Schema.map Prod.fst).Nodup
      ∧ (∀ e ∈ (DataSourceUserHierarchyGroup deps).Schema, e.1 ≠ "tags" →
          (e.2.Required = true ↔ e.1 = "instance_id"))
      ∧ (deps.TagsSchemaComputed.Required = false →
          ∀ e ∈ (DataSourceUserHierarchyGroup deps).Schema, (e.2.Required = true ↔ e.1 = "instance_id"))
      ∧ (∃ s f, ("instance_id", s) ∈ (DataSourceUserHierarchyGroup deps).Schema
          ∧ s.ValidateFunc = some f
          ∧ ∀ v, f v = true
            ↔ ∃ str, v = Value.string str ∧ 1 ≤ str.utf8ByteSize ∧ str.utf8ByteSize ≤ 100)
      ∧ (∀ key, key = "name" ∨ key = "hierarchy_group_id" →
          ∃ s, (key, s) ∈ (DataSourceUserHierarchyGroup deps).Schema
            ∧ s.Optional = true ∧ s.Computed = true ∧ s.Required = false
            ∧ s.ExactlyOneOf.length = 2
            ∧ ∀ k, k ∈ s.ExactlyOneOf ↔ (k = "name" ∨ k = "hierarchy_group_id"))
      ∧ (∀ e ∈ (DataSourceUserHierarchyGroup deps).Schema,
          e.1 ≠ "instance_id" → e.1 ≠ "name" → e.1 ≠ "hierarchy_group_id" → e.1 ≠ "tags" →
          e.2.Computed = true ∧ e.2.Required = false ∧ e.2.Optional = false)
      ∧ (∀ s, ("tags", s) ∈ (DataSourceUserHierarchyGroup deps).Schema ↔ s = deps.TagsSchemaComputed)) := by
  refine ⟨⟨?_, ?_, ?_, ?_, ?_, ?_, ?_⟩, ⟨?_, ?_, ?_, ?_, ?_, ?_, ?_⟩⟩
  · simp [DataSourceRoutingProfile]
  · simp [DataSourceRoutingProfile]
  · intro htags
    simp [DataSourceRoutingProfile, htags]
  · refine ⟨{ Type_ := .TypeString, Required := true,
              ValidateFunc := some (validation.StringLenBetween 1 100) }, _, ?_, rfl,
      stringLenBetween_accepts 1 100⟩
    simp [DataSourceRoutingProfile]
  · rintro key (rfl | rfl)
    · refine ⟨{ Type_ := .TypeString, Optional := true, Computed := true,
                ExactlyOneOf := ["name", "routing_profile_id"] }, ?_, rfl, rfl, rfl, rfl, ?_⟩
      · simp [DataSourceRoutingProfile]
      · simp
    · refine ⟨{ Type_ := .TypeString, Optional := true, Computed := true,
                ExactlyOneOf := ["routing_profile_id", "name"] }, ?_, rfl, rfl, rfl, rfl, ?_⟩
      · simp [DataSourceRoutingProfile]
      · simp [or_comm]
  · simp [DataSourceRoutingProfile]
  · intro s
    simp [DataSourceRoutingProfile]
  · simp [DataSourceUserHierarchyGroup]
  · simp [DataSourceUserHierarchyGroup]
  · intro htags
    simp [DataSourceUserHierarchyGroup, htags]
  · refine ⟨{ Type_ := .TypeString, Required := true,
              ValidateFunc := some (validation.StringLenBetween 1 100) }, _, ?_, rfl,
      stringLenBetween_accepts 1 100⟩
    simp [DataSourceUserHierarchyGroup]
  · rintro key (rfl | rfl)
    · refine ⟨{ Type_ := .TypeString, Optional := true, Computed := true,
                ExactlyOneOf := ["name", "hierarchy_group_id"] }, ?_, rfl, rfl, rfl, rfl, ?_⟩
      · simp [DataSourceUserHierarchyGroup]
      · simp
    · refine ⟨{ Type_ := .TypeString, Optional := true, Computed := true,
                ExactlyOneOf := ["hierarchy_group_id", "name"] }, ?_, rfl, rfl, rfl, rfl, ?_⟩
      · simp [DataSourceUserHierarchyGroup]
      · simp [or_comm]
  · simp [DataSourceUserHierarchyGroup]
  · intro s
    simp [DataSourceUserHierarchyGroup]

end tfconnect

namespace batch

theorem filter_length_le_one_of_nodup {α β : Type} [DecidableEq β] (f : α → β) (l : List α)
    (h : (l.map f).Nodup) (b : β) : (l.filter fun e => decide (f e = b)).length ≤ 1 := by
  have hc := List.nodup_iff_count_le_one.1 h b
  rw [← List.countP_eq_length_filter]
  have : List.countP (fun e => decide (f e = b)) l = List.count b (l.map f) := by
    rw [List.count, List.countP_map]
    congr 1
  rw [this]
  exact hc

/-- C6. In the batch service package the TypeNames of `SDKDataSources` are
`aws_batch_compute_environment`, `aws_batch_job_queue`, `aws_batch_scheduling_policy`
and those of `SDKResources` are `aws_batch_compute_environment`,
`aws_batch_job_definition`, `aws_batch_scheduling_policy`, pairwise distinct within
each table, so a lookup by type name within one table finds at most one entry; every
entry of `SDKResources` and `FrameworkResources` has the ARN attribute as its tag
`IdentifierAttribute`, every entry of `SDKDataSources` has a Tags record with an empty
`IdentifierAttribute`, and the tables do not depend on the context argument. -/
theorem servicePackage_tables (p : servicePackage) (ctx : Context) :
    ((p.SDKDataSources ctx).map (fun e => e.TypeName)
        = ["aws_batch_compute_environment", "aws_batch_job_queue",
            "aws_batch_scheduling_policy"])
    ∧ ((p.SDKDataSources ctx).map (fun e => e.TypeName)).Nodup
    ∧ ((p.SDKResources ctx).map (fun e => e.TypeName)
        = ["aws_batch_compute_environment", "aws_batch_job_definition",
            "aws_batch_scheduling_policy"])
    ∧ ((p.SDKResources ctx).map (fun e => e.TypeName)).Nodup
    ∧ (∀ typeName : String,
        ((p.SDKDataSources ctx).filter fun e => decide (e.TypeName = typeName)).length ≤ 1
        ∧ ((p.SDKResources ctx).filter fun e => decide (e.TypeName = typeName)).length ≤ 1)
    ∧ (∀ e ∈ p.SDKResources ctx, e.Tags = some { IdentifierAttribute := names.AttrARN })
    ∧ (∀ e ∈ p.FrameworkResources ctx, e.Tags = some { IdentifierAttribute := names.AttrARN })
    ∧ (∀ e ∈ p.SDKDataSources ctx, e.Tags = some { IdentifierAttribute := "" })
    ∧ (∀ (q : servicePackage) (ctx2 : Context),
        q.FrameworkDataSources ctx2 = p.FrameworkDataSources ctx
        ∧ q.FrameworkResources ctx2 = p.FrameworkResources ctx
        ∧ q.SDKDataSources ctx2 = p.SDKDataSources ctx
        ∧ q.SDKResources ctx2 = p.SDKResources ctx) := by
  have hds : ((p.SDKDataSources ctx).map (fun e => e.TypeName)).Nodup := by
    simp [servicePackage.SDKDataSources]
  have hrs : ((p.SDKResources ctx).map (fun e => e.TypeName)).Nodup := by
    simp [servicePackage.SDKResources]
  refine ⟨rfl, hds, rfl, hrs, ?_, ?_, ?_, ?_, ?_⟩
  · intro typeName
    exact ⟨filter_length_le_one_of_nodup _ _ hds typeName,
      filter_length_le_one_of_nodup _ _ hrs typeName⟩
  · simp [servicePackage.SDKResources]
  · simp [servicePackage.FrameworkResources]
  · simp [servicePackage.SDKDataSources]
  · intro q ctx2
    exact ⟨rfl, rfl, rfl, rfl⟩

end batch

/-! ## The claims at concrete scenarios -/

namespace tfconnect

open connect

theorem summaryByName_returns_last_match_witness :
    dataSourceGetRoutingProfileSummaryByName exampleDeps exampleContext exampleClient
        "inst-1" "alpha"
      = ((some ⟨none, some "rp-3", some "alpha"⟩, none),
          [Call.ListRoutingProfiles ⟨some "inst-1", some 60⟩,
           Call.ListRoutingProfiles ⟨some "inst-1", some 60⟩])
    ∧ userHierarchyGroupSummaryByName exampleDeps exampleContext exampleClient
        "inst-1" "alpha"
      = ((some ⟨none, some "hg-3", some "alpha"⟩, none),
          [Call.ListUserHierarchyGroups ⟨some "inst-1", some 60⟩,
           Call.ListUserHierarchyGroups ⟨some "inst-1", some 60⟩]) :=
  ⟨(((summaryByName_returns_last_match exampleDeps exampleContext exampleClient
        "inst-1" "alpha").1 exampleRoutingProfilePages rfl).1).trans (by decide),
   (((summaryByName_returns_last_match exampleDeps exampleContext exampleClient
        "inst-1" "alpha").2 exampleHierarchyGroupPages rfl).1).trans (by decide)⟩

theorem summaryByName_forwards_first_error_witness :
    dataSourceGetRoutingProfileSummaryByName exampleDeps exampleContext
        exampleClientListFailure "inst-1" "alpha"
      = ((none, some ⟨"throttled"⟩),
          List.replicate 2 (Call.ListRoutingProfiles ⟨some "inst-1", some 60⟩))
    ∧ userHierarchyGroupSummaryByName exampleDeps exampleContext
        exampleClientListFailure "inst-1" "alpha"
      = ((none, some ⟨"throttled"⟩),
          List.replicate 2 (Call.ListUserHierarchyGroups ⟨some "inst-1", some 60⟩)) :=
  ⟨(summaryByName_forwards_first_error exampleDeps exampleContext exampleClientListFailure
      "inst-1" "alpha" ⟨"throttled"⟩).1 [⟨[⟨none, some "rp-1", some "alpha"⟩]⟩]
      [Except.ok ⟨[⟨none, some "rp-3", some "alpha"⟩]⟩] rfl,
   (summaryByName_forwards_first_error exampleDeps exampleContext exampleClientListFailure
      "inst-1" "alpha" ⟨"throttled"⟩).2 [⟨[⟨none, some "hg-1", some "alpha"⟩]⟩]
      [Except.ok ⟨[⟨none, some "hg-3", some "alpha"⟩]⟩] rfl⟩

theorem read_reports_sdk_failure_witness :
    dataSourceRoutingProfileRead exampleDeps exampleContext (exampleData "" "alpha")
        (exampleMeta exampleClientListFailure)
      = .returned [⟨diag.Severity.Error,
          "finding Connect Routing Profile Summary by name (alpha): throttled", ""⟩]
          (exampleData "" "alpha")
          (List.replicate 2 (Call.ListRoutingProfiles ⟨some "inst-1", some 60⟩))
    ∧ (∃ cs, dataSourceRoutingProfileRead exampleDeps exampleContext
          (exampleData "rp-9" "alpha") (exampleMeta exampleClientDescribeFailure)
        = .returned [⟨diag.Severity.Error,
            "getting Connect Routing Profile: " ++ "access denied", ""⟩]
            (exampleData "rp-9" "alpha")
            (cs ++ [Call.DescribeRoutingProfile ⟨some "inst-1", some "rp-9"⟩])
        ∧ ∀ c ∈ cs, ∃ i, c = Call.ListRoutingProfiles i)
    ∧ (∃ d' cs input, dataSourceRoutingProfileRead exampleDepsQueueFailure exampleContext
          (exampleData "rp-9" "") (exampleMeta exampleClient)
        = .returned [⟨diag.Severity.Error,
            "finding Connect Routing Profile Queue Configs Summary by Routing Profile ID ("
              ++ "rp-9" ++ "): " ++ "queues unavailable", ""⟩] d'
            (cs ++ [Call.DescribeRoutingProfile input,
              Call.ListRoutingProfileQueues "inst-1" "rp-9"])
        ∧ ∀ c ∈ cs, ∃ i, c = Call.ListRoutingProfiles i)
    ∧ dataSourceUserHierarchyGroupRead exampleDeps exampleContext (exampleData "" "alpha")
        (exampleMeta exampleClientListFailure)
      = .returned [⟨diag.Severity.Error,
          "finding Connect Hierarchy Group Summary by name (alpha): throttled", ""⟩]
          (exampleData "" "alpha")
          (List.replicate 2 (Call.ListUserHierarchyGroups ⟨some "inst-1", some 60⟩))
    ∧ (∃ cs, dataSourceUserHierarchyGroupRead exampleDeps exampleContext
          (exampleData "hg-9" "alpha") (exampleMeta exampleClientDescribeFailure)
        = .returned [⟨diag.Severity.Error,
            "getting Connect Hierarchy Group: " ++ "access denied", ""⟩]
            (exampleData "hg-9" "alpha")
            (cs ++ [Call.DescribeUserHierarchyGroup ⟨some "hg-9", some "inst-1"⟩])
        ∧ ∀ c ∈ cs, ∃ i, c = Call.ListUserHierarchyGroups i) :=
  ⟨(read_reports_sdk_failure exampleDeps exampleContext (exampleData "" "alpha")
      (exampleMeta exampleClientListFailure)).1 "inst-1" "alpha"
      [⟨[⟨none, some "rp-1", some "alpha"⟩]⟩] ⟨"throttled"⟩
      [Except.ok ⟨[⟨none, some "rp-3", some "alpha"⟩]⟩] rfl rfl rfl (by decide) rfl,
   (read_reports_sdk_failure exampleDeps exampleContext (exampleData "rp-9" "alpha")
      (exampleMeta exampleClientDescribeFailure)).2.1 ⟨some "inst-1", some "rp-9"⟩
      ⟨"access denied"⟩ (by decide) rfl,
   (read_reports_sdk_failure exampleDepsQueueFailure exampleContext (exampleData "rp-9" "")
      (exampleMeta exampleClient)).2.2.1 "inst-1" "rp-9" ⟨"queues unavailable"⟩
      (by decide) rfl,
   (read_reports_sdk_failure exampleDeps exampleContext (exampleData "" "alpha")
      (exampleMeta exampleClientListFailure)).2.2.2.1 "inst-1" "alpha"
      [⟨[⟨none, some "hg-1", some "alpha"⟩]⟩] ⟨"throttled"⟩
      [Except.ok ⟨[⟨none, some "hg-3", some "alpha"⟩]⟩] rfl rfl rfl (by decide) rfl,
   (read_reports_sdk_failure exampleDeps exampleContext (exampleData "hg-9" "alpha")
      (exampleMeta exampleClientDescribeFailure)).2.2.2.2 ⟨some "hg-9", some "inst-1"⟩
      ⟨"access denied"⟩ (by decide) rfl⟩

theorem read_success_sets_id_witness :
    (∃ iid input resp rp rid,
        (exampleData "rp-9" "alpha").attrs "instance_id" = Value.string iid
        ∧ Call.DescribeRoutingProfile input
          ∈ (dataSourceRoutingProfileRead exampleDeps exampleContext
              (exampleData "rp-9" "alpha") (exampleMeta exampleClient)).calls
        ∧ exampleClient.DescribeRoutingProfile input = (some resp, none)
        ∧ resp.RoutingProfile = some rp
        ∧ rp.RoutingProfileId = some rid
        ∧ (dataSourceRoutingProfileRead exampleDeps exampleContext
            (exampleData "rp-9" "alpha") (exampleMeta exampleClient)).data.Id
          = iid ++ ":" ++ rid)
    ∧ (dataSourceRoutingProfileRead exampleDeps exampleContext
        (exampleData "rp-9" "alpha") (exampleMeta exampleClient)).data.Id = "inst-1:rp-9"
    ∧ (∃ iid input resp hg,
        (exampleData "hg-9" "alpha").attrs "instance_id" = Value.string iid
        ∧ Call.DescribeUserHierarchyGroup input
          ∈ (dataSourceUserHierarchyGroupRead exampleDeps exampleContext
              (exampleData "hg-9" "alpha") (exampleMeta exampleClientNilId)).calls
        ∧ exampleClientNilId.DescribeUserHierarchyGroup input = (some resp, none)
        ∧ resp.HierarchyGroup = some hg
        ∧ (dataSourceUserHierarchyGroupRead exampleDeps exampleContext
            (exampleData "hg-9" "alpha") (exampleMeta exampleClientNilId)).data.Id
          = iid ++ ":" ++ aws.ToString hg.Id
        ∧ (hg.Id = none →
          (dataSourceUserHierarchyGroupRead exampleDeps exampleContext
            (exampleData "hg-9" "alpha") (exampleMeta exampleClientNilId)).data.Id
            = iid ++ ":"))
    ∧ (dataSourceUserHierarchyGroupRead exampleDeps exampleContext
        (exampleData "hg-9" "alpha") (exampleMeta exampleClientNilId)).data.Id = "inst-1:" :=
  ⟨(read_success_sets_id exampleDeps exampleContext (exampleData "rp-9" "alpha")
      (exampleMeta exampleClient) []).1 rfl rfl,
   by decide,
   (read_success_sets_id exampleDeps exampleContext (exampleData "hg-9" "alpha")
      (exampleMeta exampleClientNilId) []).2 rfl rfl,
   by decide⟩

theorem read_name_not_found_witness :
    (dataSourceRoutingProfileRead exampleDeps exampleContext (exampleData "" "gamma")
          (exampleMeta exampleClient)
        = .returned [⟨diag.Severity.Error,
            "finding Connect Routing Profile Summary " ++ ("by name (" ++ "gamma" ++
              "): not found"), ""⟩] (exampleData "" "gamma")
            (List.replicate 2 (Call.ListRoutingProfiles ⟨some "inst-1", some 60⟩))
      ∧ ∀ input, Call.DescribeRoutingProfile input
          ∉ (dataSourceRoutingProfileRead exampleDeps exampleContext (exampleData "" "gamma")
              (exampleMeta exampleClient)).calls)
    ∧ (dataSourceUserHierarchyGroupRead exampleDeps exampleContext (exampleData "" "gamma")
          (exampleMeta exampleClient)
        = .returned [⟨diag.Severity.Error,
            "finding Connect Hierarchy Group Summary " ++ ("by name (" ++ "gamma" ++
              "): not found"), ""⟩] (exampleData "" "gamma")
            (List.replicate 2 (Call.ListUserHierarchyGroups ⟨some "inst-1", some 60⟩))
      ∧ ∀ input, Call.DescribeUserHierarchyGroup input
          ∉ (dataSourceUserHierarchyGroupRead exampleDeps exampleContext
              (exampleData "" "gamma") (exampleMeta exampleClient)).calls) :=
  ⟨(read_name_not_found exampleDeps exampleContext (exampleData "" "gamma")
      (exampleMeta exampleClient) "inst-1" "gamma").1 exampleRoutingProfilePages
      rfl rfl rfl (by decide) rfl (by decide),
   (read_name_not_found exampleDeps exampleContext (exampleData "" "gamma")
      (exampleMeta exampleClient) "inst-1" "gamma").2 exampleHierarchyGroupPages
      rfl rfl rfl (by decide) rfl (by decide)⟩

theorem read_identifier_precedence_witness :
    (∃ rest, (dataSourceRoutingProfileRead exampleDeps exampleContext
          (exampleData "rp-9" "alpha") (exampleMeta exampleClient)).calls
        = Call.DescribeRoutingProfile ⟨some "inst-1", some "rp-9"⟩ :: rest
      ∧ ∀ c ∈ rest, ∃ a b, c = Call.ListRoutingProfileQueues a b)
    ∧ (∃ rest, (dataSourceRoutingProfileRead exampleDeps exampleContext
          (exampleData "" "alpha") (exampleMeta exampleClient)).calls
        = [Call.ListRoutingProfiles ⟨some "inst-1", some 60⟩,
            Call.ListRoutingProfiles ⟨some "inst-1", some 60⟩]
          ++ Call.DescribeRoutingProfile ⟨some "inst-1", some "rp-3"⟩ :: rest
      ∧ (∀ c ∈ [Call.ListRoutingProfiles ⟨some "inst-1", some 60⟩,
            Call.ListRoutingProfiles ⟨some "inst-1", some 60⟩],
          ∃ i, c = Call.ListRoutingProfiles i)
      ∧ ∀ c ∈ rest, ∃ a b, c = Call.ListRoutingProfileQueues a b)
    ∧ (dataSourceUserHierarchyGroupRead exampleDeps exampleContext
          (exampleData "hg-9" "alpha") (exampleMeta exampleClient)).calls
        = [Call.DescribeUserHierarchyGroup ⟨some "hg-9", some "inst-1"⟩]
    ∧ ((dataSourceUserHierarchyGroupRead exampleDeps exampleContext
          (exampleData "" "alpha") (exampleMeta exampleClient)).calls
        = [Call.ListUserHierarchyGroups ⟨some "inst-1", some 60⟩,
            Call.ListUserHierarchyGroups ⟨some "inst-1", some 60⟩]
          ++ [Call.DescribeUserHierarchyGroup ⟨some "hg-3", some "inst-1"⟩]
      ∧ ∀ c ∈ [Call.ListUserHierarchyGroups ⟨some "inst-1", some 60⟩,
            Call.ListUserHierarchyGroups ⟨some "inst-1", some 60⟩],
          ∃ i, c = Call.ListUserHierarchyGroups i) :=
  ⟨(read_identifier_precedence exampleDeps exampleContext (exampleData "rp-9" "alpha")
      (exampleMeta exampleClient) "inst-1").1 "rp-9" rfl rfl (by decide),
   (read_identifier_precedence exampleDeps exampleContext (exampleData "" "alpha")
      (exampleMeta exampleClient) "inst-1").2.1 "alpha" ⟨none, some "rp-3", some "alpha"⟩
      _ rfl rfl rfl (by decide) (by decide),
   (read_identifier_precedence exampleDeps exampleContext (exampleData "hg-9" "alpha")
      (exampleMeta exampleClient) "inst-1").2.2.2.1 "hg-9" rfl rfl (by decide),
   (read_identifier_precedence exampleDeps exampleContext (exampleData "" "alpha")
      (exampleMeta exampleClient) "inst-1").2.2.2.2.1 "alpha"
      ⟨none, some "hg-3", some "alpha"⟩ _ rfl rfl rfl (by decide) (by decide)⟩

theorem routingProfileRead_nil_id_panics_witness :
    ∃ d' cs, dataSourceRoutingProfileRead exampleDeps exampleContext (exampleData "rp-9" "")
        (exampleMeta exampleClientNilId)
      = .panicked Panic.nilPointerDereference d' cs
      ∧ d'.setIdCalls = (exampleData "rp-9" "").setIdCalls :=
  routingProfileRead_nil_id_panics exampleDeps exampleContext (exampleData "rp-9" "")
    (exampleMeta exampleClientNilId) ⟨some "inst-1", some "rp-9"⟩
    ⟨some { DefaultOutboundQueueId := none, Description := none,
            MediaConcurrencies := [], Name := some "alpha",
            RoutingProfileArn := none, RoutingProfileId := none, Tags := [] }⟩
    { DefaultOutboundQueueId := none, Description := none,
      MediaConcurrencies := [], Name := some "alpha",
      RoutingProfileArn := none, RoutingProfileId := none, Tags := [] }
    (by decide) rfl rfl rfl rfl

theorem read_sets_id_only_on_success_witness :
    ((dataSourceRoutingProfileRead exampleDeps exampleContext (exampleData "rp-9" "alpha")
          (exampleMeta exampleClientDescribeFailure)).data.setIdCalls = []
      ∧ (dataSourceRoutingProfileRead exampleDeps exampleContext (exampleData "rp-9" "alpha")
          (exampleMeta exampleClientDescribeFailure)).data.Id = "old")
    ∧ ((dataSourceUserHierarchyGroupRead exampleDeps exampleContext
          (exampleData "hg-9" "alpha")
          (exampleMeta exampleClientDescribeFailure)).data.setIdCalls = []
      ∧ (dataSourceUserHierarchyGroupRead exampleDeps exampleContext
          (exampleData "hg-9" "alpha")
          (exampleMeta exampleClientDescribeFailure)).data.Id = "old")
    ∧ diag.Diagnostics.HasError ([] : diag.Diagnostics) = false :=
  ⟨((read_sets_id_only_on_success exampleDeps exampleContext (exampleData "rp-9" "alpha")
      (exampleMeta exampleClientDescribeFailure)
      [⟨diag.Severity.Error, "getting Connect Routing Profile: access denied", ""⟩]).1
      rfl).1 rfl,
   ((read_sets_id_only_on_success exampleDeps exampleContext (exampleData "hg-9" "alpha")
      (exampleMeta exampleClientDescribeFailure)
      [⟨diag.Severity.Error, "getting Connect Hierarchy Group: access denied", ""⟩]).2
      rfl).1 rfl,
   ((read_sets_id_only_on_success exampleDeps exampleContext (exampleData "rp-9" "alpha")
      (exampleMeta exampleClient) []).1 rfl).2 (by decide)⟩

theorem dataSource_schema_flags_witness :
    (({ Type_ := schema.ValueType.TypeString, Computed := true } : schema.Schema).Computed
        = true
      ∧ ({ Type_ := schema.ValueType.TypeString, Computed := true } : schema.Schema).Required
        = false
      ∧ ({ Type_ := schema.ValueType.TypeString, Computed := true } : schema.Schema).Optional
        = false)
    ∧ (∀ e ∈ (DataSourceRoutingProfile exampleDeps).Schema,
        (e.2.Required = true ↔ e.1 = "instance_id"))
    ∧ (∀ e ∈ (DataSourceUserHierarchyGroup exampleDeps).Schema,
        (e.2.Required = true ↔ e.1 = "instance_id")) :=
  ⟨(dataSource_schema_flags exampleDeps).2.2.2.2.2.2.1
      ("level_id", { Type_ := schema.ValueType.TypeString, Computed := true })
      (by simp [DataSourceUserHierarchyGroup]) (by decide) (by decide) (by decide)
      (by decide),
   (dataSource_schema_flags exampleDeps).1.2.2.1 rfl,
   (dataSource_schema_flags exampleDeps).2.2.2.1 rfl⟩

/-- C5 as stated fails: when `tftags.TagsSchemaComputed()` returns an Optional and
Computed schema, `tags` is a top-level attribute other than `instance_id` and the
lookup keys that is Optional, in both schemas. -/
theorem dataSource_schema_tags_optional :
    ¬ (∀ e ∈ (DataSourceRoutingProfile exampleDeps).Schema,
        e.1 ≠ "instance_id" → e.1 ≠ "name" → e.1 ≠ "routing_profile_id" →
        e.2.Computed = true ∧ e.2.Required = false ∧ e.2.Optional = false)
    ∧ ¬ (∀ e ∈ (DataSourceUserHierarchyGroup exampleDeps).Schema,
        e.1 ≠ "instance_id" → e.1 ≠ "name" → e.1 ≠ "hierarchy_group_id" →
        e.2.Computed = true ∧ e.2.Required = false ∧ e.2.Optional = false) := by
  refine ⟨fun h => ?_, fun h => ?_⟩
  · have := (h ("tags", exampleDeps.TagsSchemaComputed)
      (by simp [DataSourceRoutingProfile]) (by decide) (by decide) (by decide)).2.2
    exact absurd this (by decide)
  · have := (h ("tags", exampleDeps.TagsSchemaComputed)
      (by simp [DataSourceUserHierarchyGroup]) (by decide) (by decide) (by decide)).2.2
    exact absurd this (by decide)

end tfconnect

namespace batch

theorem servicePackage_tables_witness :
    (({ Factory := Factory.ResourceJobDefinition,
        TypeName := "aws_batch_job_definition",
        Name := "Job Definition",
        Tags := some { IdentifierAttribute := names.AttrARN } } :
          types.ServicePackageSDKResource Factory).Tags
        = some { IdentifierAttribute := names.AttrARN })
    ∧ ((servicePackage.mk.SDKResources exampleContext).filter
          fun e => decide (e.TypeName = "aws_batch_job_definition")).length ≤ 1
    ∧ ((servicePackage.mk.SDKDataSources exampleContext).filter
          fun e => decide (e.TypeName = "aws_batch_job_definition")).length ≤ 1 :=
  ⟨(servicePackage_tables servicePackage.mk exampleContext).2.2.2.2.2.1
      { Factory := Factory.ResourceJobDefinition,
        TypeName := "aws_batch_job_definition",
        Name := "Job Definition",
        Tags := some { IdentifierAttribute := names.AttrARN } } (by decide),
   ((servicePackage_tables servicePackage.mk exampleContext).2.2.2.2.1
      "aws_batch_job_definition").2,
   ((servicePackage_tables servicePackage.mk exampleContext).2.2.2.2.1
      "aws_batch_job_definition").1⟩

end batch

end TerraformAws
